import Mathlib

/-!
# AutoTrader

A shallow embedding of `autotrader.cc` (Ready Trader Go auto-trader) and the
properties of its event handlers.

## Modelling conventions

* Every handler is a pure function from the engine state (the member variables
  of `AutoTrader`) and the handler arguments to the new state and the list of
  commands sent to the gateway, in the order they are sent.  Logging and
  `printf` output are not part of the model.
* `unsigned long` values (handler arguments, identifiers) are natural numbers;
  arithmetic the source performs in `unsigned long` is reduced modulo `2^64`
  (`uadd`, `umul`), and a value converted to `signed long` goes through `toLong`
  (two's complement).  A compound assignment `x += u` with `x` signed and `u`
  unsigned is computed by C++ in `unsigned long` and converted back, hence
  `toLong (x + u)`.
* `signed long` members are integers.  Arithmetic between signed operands is
  exact: signed overflow is undefined behaviour in C++, so only executions
  without it are described.  Signed division truncates towards zero
  (`Int.tdiv`).
* The class declaration (`autotrader.h`) is not among the sources.  The members
  used in `std::min(60L, ...)` must have type `signed long` for the source to
  compile; the mid prices, profits and counters printed with `%ld` are taken as
  `signed long` as well, the identifier counters as `unsigned long`.
* `MINIMUM_BID` and `MAXIMUM_ASK` come from the library headers and are
  parameters (`Limits`).
* `std::array` arguments are lists; `a[0]` is `headD 0`.
* The registries (`mAsks`, `mBids`, `mHedgeAsks`, `mHedgeBids`) are finite sets
  of identifiers; `count(id) == 1` is membership.
-/

namespace AutoTrader

/-! ## Machine arithmetic -/

/-- Addition in `unsigned long`: modulo `2^64`. -/
def uadd (a b : Nat) : Nat := (a + b) % 18446744073709551616

/-- Multiplication in `unsigned long`: modulo `2^64`. -/
def umul (a b : Nat) : Nat := (a * b) % 18446744073709551616

/-- Conversion of an integer value to `signed long` (two's complement, 64 bits). -/
def toLong (x : Int) : Int :=
  (x + 9223372036854775808) % 18446744073709551616 - 9223372036854775808

/-! ## Constants (lines 30-40) -/

def LOT_SIZE : Int := 10
def POSITION_LIMIT : Int := 100

def ACTIVE_ORDERS_LIMIT : Int := 10
def ACTIVE_VOLUME_LIMIT : Int := 200

def ORDER_OFFSETS : Fin 3 → Int
  | 0 => 100
  | 1 => 200
  | 2 => 300

def ORDER_SHARE : Fin 3 → Int
  | 0 => 3
  | 1 => 2
  | 2 => 6

def TICK_SIZE_IN_CENTS : Int := 100

/-- Library constants `MINIMUM_BID` and `MAXIMUM_ASK`, declared outside the sources. -/
structure Limits where
  MINIMUM_BID : Int
  MAXIMUM_ASK : Int

def MIN_BId_NEARST_TICK (L : Limits) : Int :=
  ((L.MINIMUM_BID + TICK_SIZE_IN_CENTS).tdiv TICK_SIZE_IN_CENTS) * TICK_SIZE_IN_CENTS

def MAX_ASK_NEAREST_TICK (L : Limits) : Int :=
  (L.MAXIMUM_ASK.tdiv TICK_SIZE_IN_CENTS) * TICK_SIZE_IN_CENTS

/-! ## Data model -/

inductive Instrument
  | FUTURE
  | ETF
  deriving DecidableEq, Repr

inductive Side
  | SELL
  | BUY
  deriving DecidableEq, Repr

inductive Lifespan
  | GOOD_FOR_DAY
  deriving DecidableEq, Repr

/-- Commands sent to the gateway.  The price and volume of an insert order are
the values of the `signed long` expressions the handler passes. -/
inductive Command
  | SendInsertOrder (clientOrderId : Nat) (side : Side) (price volume : Int)
      (lifespan : Lifespan)
  | SendHedgeOrder (clientOrderId : Nat) (side : Side) (price : Int) (volume : Nat)
  deriving DecidableEq, Repr

/-- Member variables of `AutoTrader`. -/
structure State where
  mPosition : Int
  mFutPosition : Int
  mETFProfit : Int
  mFutProfit : Int
  mETFMid : Int
  mFutMid : Int
  mActiveOrders : Int
  mActiveVolume : Int
  mActiveBid : Int
  mActiveAsk : Int
  mAskVolume : Int
  mFutOrder : Bool
  mOrderIds : Nat
  mNextMessageId : Nat
  mAskId : Nat
  mBidId : Nat
  mHedgeBidId : Nat
  mHedgeAskId : Nat
  mAsks : Finset Nat
  mBids : Finset Nat
  mHedgeAsks : Finset Nat
  mHedgeBids : Finset Nat

/-- Result of a handler: the new state and the commands sent, oldest first. -/
abbrev Outcome := State × List Command

/-- The state at start-up: all counters, positions, profits and mids zero and
all registries empty.  The initial value of the fresh-hedge flag and of the two
identifier counters is fixed by the class declaration and is a parameter. -/
def initial (futOrder : Bool) (orderIds nextMessageId : Nat) : State :=
  { mPosition := 0, mFutPosition := 0, mETFProfit := 0, mFutProfit := 0,
    mETFMid := 0, mFutMid := 0, mActiveOrders := 0, mActiveVolume := 0,
    mActiveBid := 0, mActiveAsk := 0, mAskVolume := 0, mFutOrder := futOrder,
    mOrderIds := orderIds, mNextMessageId := nextMessageId,
    mAskId := 0, mBidId := 0, mHedgeBidId := 0, mHedgeAskId := 0,
    mAsks := ∅, mBids := ∅, mHedgeAsks := ∅, mHedgeBids := ∅ }

/-! ## Handlers -/

/-- Lines 46-50. -/
def DisconnectHandler (s : State) : Outcome := (s, [])

/-- Lines 168-216. -/
def OrderStatusMessageHandler (s : State) (clientOrderId fillVolume remainingVolume : Nat)
    (_fees : Int) : Outcome :=
  if remainingVolume = 0 then
    let s1 : State :=
      if clientOrderId ∈ s.mBids then
        { s with mBids := s.mBids.erase clientOrderId,
                 mActiveBid := toLong (s.mActiveBid - fillVolume) }
      else if clientOrderId ∈ s.mAsks then
        { s with mAsks := s.mAsks.erase clientOrderId,
                 mActiveAsk := toLong (s.mActiveAsk - fillVolume) }
      else s
    ({ s1 with mActiveOrders := s1.mActiveOrders - 1,
               mActiveVolume := toLong (s1.mActiveVolume - fillVolume) }, [])
  else (s, [])

/-- Lines 52-60. -/
def ErrorMessageHandler (s : State) (clientOrderId : Nat) (_errorMessage : String) : Outcome :=
  if clientOrderId ≠ 0 ∧ (clientOrderId ∈ s.mAsks ∨ clientOrderId ∈ s.mBids) then
    OrderStatusMessageHandler s clientOrderId 0 0 0
  else (s, [])

/-- Lines 62-77. -/
def HedgeFilledMessageHandler (s : State) (clientOrderId price volume : Nat) : Outcome :=
  if clientOrderId ∈ s.mHedgeBids then
    ({ s with mFutPosition := toLong (s.mFutPosition + volume),
              mFutProfit := toLong (s.mFutProfit - umul volume price) }, [])
  else if clientOrderId ∈ s.mHedgeAsks then
    ({ s with mFutPosition := toLong (s.mFutPosition - volume),
              mFutProfit := toLong (s.mFutProfit + umul volume price) }, [])
  else (s, [])

/-- Lines 79-126: the body is commented out. -/
def OrderBookMessageHandler (s : State) (_instrument : Instrument) (_sequenceNumber : Nat)
    (_askPrices _askVolumes _bidPrices _bidVolumes : List Nat) : Outcome := (s, [])

/-- Lines 128-166. -/
def OrderFilledMessageHandler (L : Limits) (s : State) (clientOrderId price volume : Nat) :
    Outcome :=
  if clientOrderId ∈ s.mAsks then
    ({ s with mPosition := s.mPosition - toLong volume,
              mHedgeBidId := s.mNextMessageId,
              mNextMessageId := uadd s.mNextMessageId 1,
              mHedgeBids := insert s.mNextMessageId s.mHedgeBids,
              mETFProfit := toLong (s.mETFProfit + umul volume price) },
     [Command.SendHedgeOrder s.mNextMessageId Side.BUY (MAX_ASK_NEAREST_TICK L) volume])
  else if clientOrderId ∈ s.mBids then
    ({ s with mPosition := s.mPosition + toLong volume,
              mHedgeAskId := s.mNextMessageId,
              mNextMessageId := uadd s.mNextMessageId 1,
              mHedgeAsks := insert s.mNextMessageId s.mHedgeAsks,
              mETFProfit := toLong (s.mETFProfit - umul volume price) },
     [Command.SendHedgeOrder s.mNextMessageId Side.SELL (MIN_BId_NEARST_TICK L) volume])
  else (s, [])

/-- Mid price assigned on a tick with a non-empty market (lines 234-240 and
255-261); `none` when both sides are zero and the handler returns. -/
def newMid (bid ask : Nat) : Option Int :=
  if bid = 0 ∧ ask = 0 then none
  else if bid = 0 then some (toLong ask)
  else if ask = 0 then some (toLong bid)
  else some (toLong (umul (uadd bid ask / 200) 100))

/-- Sell-ladder capacity, line 267. -/
def sellAvailable (s : State) : Int :=
  min 60 (min (s.mPosition - s.mActiveAsk + POSITION_LIMIT) (ACTIVE_VOLUME_LIMIT - s.mAskVolume))

/-- One iteration of the sell loop, lines 269-278. -/
def sellTier (available : Int) (r : Outcome) (i : Fin 3) : Outcome :=
  if r.1.mActiveOrders < ACTIVE_ORDERS_LIMIT then
    let volume := available.tdiv (ORDER_SHARE i)
    if volume ≤ 0 then r
    else
      ({ r.1 with mAskId := r.1.mOrderIds,
                  mOrderIds := uadd r.1.mOrderIds 1,
                  mAsks := insert r.1.mOrderIds r.1.mAsks,
                  mActiveVolume := r.1.mActiveVolume + volume,
                  mActiveOrders := r.1.mActiveOrders + 1,
                  mActiveAsk := r.1.mActiveAsk + volume },
       r.2 ++ [Command.SendInsertOrder r.1.mOrderIds Side.SELL
                 (r.1.mETFMid + ORDER_OFFSETS i) volume Lifespan.GOOD_FOR_DAY])
  else r

/-- Sell ladder, lines 267-279: the capacity is computed once, then the loop runs. -/
def sellLadder (r : Outcome) : Outcome :=
  [0, 1, 2].foldl (sellTier (sellAvailable r.1)) r

/-- Buy-ladder capacity, line 282. -/
def buyAvailable (s : State) : Int :=
  min 60 (min (-s.mPosition + POSITION_LIMIT - s.mActiveBid)
    (ACTIVE_VOLUME_LIMIT - s.mActiveVolume))

/-- One iteration of the buy loop, lines 284-293. -/
def buyTier (available : Int) (r : Outcome) (i : Fin 3) : Outcome :=
  if r.1.mActiveOrders < ACTIVE_ORDERS_LIMIT then
    let volume := available.tdiv (ORDER_SHARE i)
    if volume ≤ 0 then r
    else
      ({ r.1 with mBidId := r.1.mOrderIds,
                  mOrderIds := uadd r.1.mOrderIds 1,
                  mBids := insert r.1.mOrderIds r.1.mBids,
                  mActiveVolume := r.1.mActiveVolume + volume,
                  mActiveOrders := r.1.mActiveOrders + 1,
                  mActiveBid := r.1.mActiveBid + volume },
       r.2 ++ [Command.SendInsertOrder r.1.mOrderIds Side.BUY
                 (r.1.mETFMid + 100 - ORDER_OFFSETS i) volume Lifespan.GOOD_FOR_DAY])
  else r

/-- Buy ladder, lines 282-294. -/
def buyLadder (r : Outcome) : Outcome :=
  [0, 1, 2].foldl (buyTier (buyAvailable r.1)) r

/-- First part of the quoting step, lines 264-280: the flag is cleared and the sell ladder
runs under its condition. -/
def sellPart (s : State) : Outcome :=
  let s0 : State := { s with mFutOrder := false }
  if s0.mETFMid < s0.mFutMid + 300 then sellLadder (s0, []) else (s0, [])

/-- The quoting step, lines 264-295, entered with the flag already found set: the sell part,
then the buy ladder under its condition, on the state the sell part left. -/
def quote (s : State) : Outcome :=
  let r : Outcome := sellPart s
  if r.1.mETFMid + 300 > r.1.mFutMid then buyLadder r else r

/-- Lines 218-298. -/
def TradeTicksMessageHandler (s : State) (instrument : Instrument) (_sequenceNumber : Nat)
    (askPrices _askVolumes bidPrices _bidVolumes : List Nat) : Outcome :=
  match instrument with
  | Instrument.FUTURE =>
    let s0 : State := { s with mFutOrder := false }
    match newMid (bidPrices.headD 0) (askPrices.headD 0) with
    | none => (s0, [])
    | some m => ({ s0 with mFutMid := m }, [])
  | Instrument.ETF =>
    match newMid (bidPrices.headD 0) (askPrices.headD 0) with
    | none => (s, [])
    | some m =>
      let s1 : State := { s with mETFMid := m }
      if s1.mFutOrder = true then quote s1 else (s1, [])

/-! ## Events and runs -/

/-- The events delivered by the gateway, one per handler. -/
inductive Event
  | Disconnect
  | Error (clientOrderId : Nat) (errorMessage : String)
  | HedgeFilled (clientOrderId price volume : Nat)
  | OrderBook (instrument : Instrument) (sequenceNumber : Nat)
      (askPrices askVolumes bidPrices bidVolumes : List Nat)
  | OrderFilled (clientOrderId price volume : Nat)
  | OrderStatus (clientOrderId fillVolume remainingVolume : Nat) (fees : Int)
  | TradeTicks (instrument : Instrument) (sequenceNumber : Nat)
      (askPrices askVolumes bidPrices bidVolumes : List Nat)

/-- Dispatch of one event to its handler. -/
def handle (L : Limits) (s : State) : Event → Outcome
  | Event.Disconnect => DisconnectHandler s
  | Event.Error id msg => ErrorMessageHandler s id msg
  | Event.HedgeFilled id p v => HedgeFilledMessageHandler s id p v
  | Event.OrderBook i n ap av bp bv => OrderBookMessageHandler s i n ap av bp bv
  | Event.OrderFilled id p v => OrderFilledMessageHandler L s id p v
  | Event.OrderStatus id f r fees => OrderStatusMessageHandler s id f r fees
  | Event.TradeTicks i n ap av bp bv => TradeTicksMessageHandler s i n ap av bp bv

/-- State after handling a sequence of events, one after the other. -/
def run (L : Limits) (s : State) : List Event → State
  | [] => s
  | e :: es => run L (handle L s e).1 es

/-! ## Predicates used in the statements -/

/-- The position limit of the spec: `-POSITION_LIMIT ≤ mPosition ≤ POSITION_LIMIT`. -/
abbrev PositionOk (s : State) : Prop :=
  -POSITION_LIMIT ≤ s.mPosition ∧ s.mPosition ≤ POSITION_LIMIT

/-- The active-order cap: `mActiveOrders ≤ ACTIVE_ORDERS_LIMIT`. -/
abbrev ActiveOrdersOk (s : State) : Prop := s.mActiveOrders ≤ ACTIVE_ORDERS_LIMIT

/-- The order count equals the number of identifiers in the primary registry. -/
abbrev CountMatches (s : State) : Prop :=
  s.mActiveOrders = ((s.mBids.card + s.mAsks.card : Nat) : Int)

/-- Every registered primary identifier is below the current value of `mOrderIds` (it was
drawn from the counter earlier), and the counter is more than ten steps away from wrapping. -/
abbrev FreshIds (s : State) : Prop :=
  s.mOrderIds + 10 < 18446744073709551616 ∧ ∀ id ∈ s.mBids ∪ s.mAsks, id < s.mOrderIds

/-- The event is not a terminal status for an identifier absent from the primary registry. -/
def KnownTerminal (s : State) : Event → Prop
  | Event.OrderStatus id _ r _ => r = 0 → id ∈ s.mBids ∨ id ∈ s.mAsks
  | _ => True

instance decKnownTerminal (s : State) : (e : Event) → Decidable (KnownTerminal s e)
  | Event.OrderStatus _ _ _ _ => inferInstanceAs (Decidable (_ → _))
  | Event.Disconnect => inferInstanceAs (Decidable True)
  | Event.Error _ _ => inferInstanceAs (Decidable True)
  | Event.HedgeFilled _ _ _ => inferInstanceAs (Decidable True)
  | Event.OrderBook _ _ _ _ _ _ => inferInstanceAs (Decidable True)
  | Event.OrderFilled _ _ _ => inferInstanceAs (Decidable True)
  | Event.TradeTicks _ _ _ _ _ _ => inferInstanceAs (Decidable True)

/-- The mid price the handler keeps for an instrument: `mFutMid` for the Future, `mETFMid` for
the ETF. -/
def midOf (i : Instrument) (s : State) : Int :=
  match i with
  | Instrument.FUTURE => s.mFutMid
  | Instrument.ETF => s.mETFMid

/-- The command is a primary SELL order. -/
def isSell : Command → Bool
  | Command.SendInsertOrder _ Side.SELL _ _ _ => true
  | _ => false

/-- The command is a primary BUY order. -/
def isBuy : Command → Bool
  | Command.SendInsertOrder _ Side.BUY _ _ _ => true
  | _ => false

/-- Price carried by a command. -/
def priceOf : Command → Int
  | Command.SendInsertOrder _ _ p _ _ => p
  | Command.SendHedgeOrder _ _ p _ => p

/-- Volume carried by a command. -/
def volumeOf : Command → Int
  | Command.SendInsertOrder _ _ _ v _ => v
  | Command.SendHedgeOrder _ _ _ v => v

/-- Sell capacity as the specification words it, with the active-ask counter in both terms:
`min(60, mPosition - mActiveAsk + POSITION_LIMIT, ACTIVE_VOLUME_LIMIT - mActiveAsk)`. -/
def sellAvailableSpec (s : State) : Int :=
  min 60 (min (s.mPosition - s.mActiveAsk + POSITION_LIMIT) (ACTIVE_VOLUME_LIMIT - s.mActiveAsk))

/-- Identifier carried by a command. -/
def idOf : Command → Nat
  | Command.SendInsertOrder id _ _ _ _ => id
  | Command.SendHedgeOrder id _ _ _ => id

/-- Commands sent while handling a sequence of events, oldest first. -/
def runCommands (L : Limits) (s : State) : List Event → List Command
  | [] => []
  | e :: es => (handle L s e).2 ++ runCommands L (handle L s e).1 es

/-- The value fits a `signed long`. -/
abbrev InLong (x : Int) : Prop := -9223372036854775808 ≤ x ∧ x < 9223372036854775808

/-- The four primary risk counters: `mActiveOrders`, `mActiveVolume`, `mActiveBid`,
`mActiveAsk`. -/
def riskCounters (s : State) : Int × Int × Int × Int :=
  (s.mActiveOrders, s.mActiveVolume, s.mActiveBid, s.mActiveAsk)

/-- Total volume of the primary SELL orders in a list of commands. -/
def sellVolume (cs : List Command) : Int := ((cs.filter isSell).map volumeOf).sum

/-- Total volume of the primary BUY orders in a list of commands. -/
def buyVolume (cs : List Command) : Int := ((cs.filter isBuy).map volumeOf).sum

/-- Volume sent and not yet filled, sell side and buy side, after one event.  `room.1` is the
total volume of the SELL orders sent so far less the volume of the fills handled for
outstanding asks, `room.2` the same for BUY orders and bids.  A fill for an outstanding ask
(resp. bid) of more than `room.1` (resp. `room.2`) reports more volume than was ever on order:
the result is `none`.  Any other event adds the volumes of the orders it sends. -/
def roomAfter (L : Limits) (s : State) (room : Int × Int) : Event → Option (Int × Int)
  | Event.OrderFilled id _ v =>
      if id ∈ s.mAsks then
        (if (v : Int) ≤ room.1 then some (room.1 - v, room.2) else none)
      else if id ∈ s.mBids then
        (if (v : Int) ≤ room.2 then some (room.1, room.2 - v) else none)
      else some room
  | e => some (room.1 + sellVolume (handle L s e).2, room.2 + buyVolume (handle L s e).2)

/-- No fill in the sequence of events reports more volume than was sent and is still
unfilled on its side, starting from state `s` with `room` on order. -/
def fillsWithinSent (L : Limits) : State → Int × Int → List Event → Bool
  | _, _, [] => true
  | s, room, e :: es =>
    match roomAfter L s room e with
    | none => false
    | some room' => fillsWithinSent L (handle L s e).1 room' es

/-- Shape of the states met before the quoting step has run: `mAskVolume` is zero, and while
the flag is set the position is flat and no primary order is registered or counted. -/
def NoQuoteYet (s : State) : Prop :=
  s.mAskVolume = 0 ∧
  (s.mFutOrder = true →
    s.mPosition = 0 ∧ s.mActiveAsk = 0 ∧ s.mActiveBid = 0 ∧ s.mAsks = ∅ ∧ s.mBids = ∅)

/-- The position can still absorb every fill of the volume on order: with `room` on order,
`-POSITION_LIMIT ≤ mPosition - room.1` and `mPosition + room.2 ≤ POSITION_LIMIT`; nothing is
on order while the flag is set. -/
def Exposure (s : State) (room : Int × Int) : Prop :=
  0 ≤ room.1 ∧ 0 ≤ room.2 ∧
  -POSITION_LIMIT ≤ s.mPosition - room.1 ∧ s.mPosition + room.2 ≤ POSITION_LIMIT ∧
  (s.mFutOrder = true → room = (0, 0))

/-! # Theorems -/

/-! ## General lemmas -/

theorem toLong_of_range (x : Int) (h1 : -9223372036854775808 ≤ x) (h2 : x < 9223372036854775808) :
    toLong x = x := by
  unfold toLong; omega

theorem sellLadder_eq (r : Outcome) :
    sellLadder r = sellTier (sellAvailable r.1)
      (sellTier (sellAvailable r.1) (sellTier (sellAvailable r.1) r 0) 1) 2 := rfl

theorem buyLadder_eq (r : Outcome) :
    buyLadder r = buyTier (buyAvailable r.1)
      (buyTier (buyAvailable r.1) (buyTier (buyAvailable r.1) r 0) 1) 2 := rfl

/-- A property of the state kept by every loop iteration is kept by the quoting step. -/
theorem quote_preserves (P : State → Prop)
    (hflag : ∀ s b, P s → P { s with mFutOrder := b })
    (hs : ∀ a r i, P r.1 → P (sellTier a r i).1)
    (hb : ∀ a r i, P r.1 → P (buyTier a r i).1)
    (s : State) (h : P s) : P (quote s).1 := by
  have hS : ∀ r : Outcome, P r.1 → P (sellLadder r).1 := fun r hr => by
    rw [sellLadder_eq]; exact hs _ _ _ (hs _ _ _ (hs _ _ _ hr))
  have hB : ∀ r : Outcome, P r.1 → P (buyLadder r).1 := fun r hr => by
    rw [buyLadder_eq]; exact hb _ _ _ (hb _ _ _ (hb _ _ _ hr))
  have hP : P (sellPart s).1 := by
    unfold sellPart
    simp only
    split_ifs
    · exact hS _ (hflag s false h)
    · exact hflag s false h
  unfold quote
  simp only
  split_ifs
  · exact hB _ hP
  · exact hP

/-- A property of the state kept by the mid and flag assignments and by every
loop iteration is kept by the trade-tick handler. -/
theorem tick_preserves (P : State → Prop)
    (hflag : ∀ s b, P s → P { s with mFutOrder := b })
    (hfut : ∀ s m, P s → P { s with mFutMid := m })
    (hetf : ∀ s m, P s → P { s with mETFMid := m })
    (hs : ∀ a r i, P r.1 → P (sellTier a r i).1)
    (hb : ∀ a r i, P r.1 → P (buyTier a r i).1)
    (s : State) (i : Instrument) (n : Nat) (ap av bp bv : List Nat) (h : P s) :
    P (TradeTicksMessageHandler s i n ap av bp bv).1 := by
  unfold TradeTicksMessageHandler
  cases i with
  | FUTURE =>
    simp only
    cases newMid (bp.headD 0) (ap.headD 0) with
    | none => exact hflag s false h
    | some m => exact hfut _ m (hflag s false h)
  | ETF =>
    simp only
    cases newMid (bp.headD 0) (ap.headD 0) with
    | none => exact h
    | some m =>
      simp only
      split_ifs
      · exact quote_preserves P hflag hs hb _ (hetf s m h)
      · exact hetf s m h

theorem sellTier_mPosition (a : Int) (r : Outcome) (i : Fin 3) :
    (sellTier a r i).1.mPosition = r.1.mPosition := by
  simp only [sellTier]; split_ifs <;> rfl

theorem buyTier_mPosition (a : Int) (r : Outcome) (i : Fin 3) :
    (buyTier a r i).1.mPosition = r.1.mPosition := by
  simp only [buyTier]; split_ifs <;> rfl

theorem tick_mPosition (s : State) (i : Instrument) (n : Nat) (ap av bp bv : List Nat) :
    (TradeTicksMessageHandler s i n ap av bp bv).1.mPosition = s.mPosition := by
  apply tick_preserves (fun t => t.mPosition = s.mPosition)
  · intro _ _ h; exact h
  · intro _ _ h; exact h
  · intro _ _ h; exact h
  · intro a r i h; rw [sellTier_mPosition]; exact h
  · intro a r i h; rw [buyTier_mPosition]; exact h
  · rfl

theorem status_mPosition (s : State) (id f r : Nat) (fees : Int) :
    (OrderStatusMessageHandler s id f r fees).1.mPosition = s.mPosition := by
  unfold OrderStatusMessageHandler; split_ifs <;> rfl

theorem error_mPosition (s : State) (id : Nat) (msg : String) :
    (ErrorMessageHandler s id msg).1.mPosition = s.mPosition := by
  unfold ErrorMessageHandler; split_ifs
  · exact status_mPosition _ _ _ _ _
  · rfl

theorem hedgeFilled_mPosition (s : State) (id p v : Nat) :
    (HedgeFilledMessageHandler s id p v).1.mPosition = s.mPosition := by
  unfold HedgeFilledMessageHandler; split_ifs <;> rfl

/-! ## C1 -/

/-- C1 (counterexample).  From the initial state with the fresh-hedge flag set, one ETF tick
(bid 900, ask 1100) quotes three bids with identifiers 0, 1, 2; a fill of 1000 lots then
reported for identifier 0 leaves `mPosition = 1000`, outside the limit of 100. -/
theorem position_limit_violated :
    (run ⟨1, 2147483647⟩ (initial true 0 1)
        [Event.TradeTicks Instrument.ETF 0 [1100] [] [900] [],
         Event.OrderFilled 0 500 1000]).mPosition = 1000 ∧
    ¬ PositionOk (run ⟨1, 2147483647⟩ (initial true 0 1)
        [Event.TradeTicks Instrument.ETF 0 [1100] [] [900] [],
         Event.OrderFilled 0 500 1000]) := by
  have h : (run ⟨1, 2147483647⟩ (initial true 0 1)
        [Event.TradeTicks Instrument.ETF 0 [1100] [] [900] [],
         Event.OrderFilled 0 500 1000]).mPosition = 1000 := by decide
  refine ⟨h, ?_⟩
  unfold PositionOk
  rw [h]
  decide

/-! ## C2 -/

theorem sellTier_activeOrders_le (a : Int) (r : Outcome) (i : Fin 3)
    (h : r.1.mActiveOrders ≤ ACTIVE_ORDERS_LIMIT) :
    (sellTier a r i).1.mActiveOrders ≤ ACTIVE_ORDERS_LIMIT := by
  simp only [sellTier]
  split_ifs with h1 h2
  · exact h
  · simp only [ACTIVE_ORDERS_LIMIT] at *; omega
  · exact h

theorem buyTier_activeOrders_le (a : Int) (r : Outcome) (i : Fin 3)
    (h : r.1.mActiveOrders ≤ ACTIVE_ORDERS_LIMIT) :
    (buyTier a r i).1.mActiveOrders ≤ ACTIVE_ORDERS_LIMIT := by
  simp only [buyTier]
  split_ifs with h1 h2
  · exact h
  · simp only [ACTIVE_ORDERS_LIMIT] at *; omega
  · exact h

theorem status_activeOrders_le (s : State) (id f r : Nat) (fees : Int)
    (h : s.mActiveOrders ≤ ACTIVE_ORDERS_LIMIT) :
    (OrderStatusMessageHandler s id f r fees).1.mActiveOrders ≤ ACTIVE_ORDERS_LIMIT := by
  simp only [OrderStatusMessageHandler]
  split_ifs <;> simp only [] <;> omega

/-- C2.  The active-order cap `mActiveOrders ≤ ACTIVE_ORDERS_LIMIT` (10) is preserved by every
event handler for every argument; for a trade tick this covers the sell ladder and the buy
ladder of the tick together. -/
theorem active_orders_cap_preserved (L : Limits) (s : State) (e : Event)
    (h : ActiveOrdersOk s) : ActiveOrdersOk (handle L s e).1 := by
  unfold ActiveOrdersOk at *
  cases e with
  | Disconnect => exact h
  | Error id msg =>
    simp only [handle, ErrorMessageHandler]
    split_ifs
    · exact status_activeOrders_le s id 0 0 0 h
    · exact h
  | HedgeFilled id p v =>
    simp only [handle, HedgeFilledMessageHandler]
    split_ifs <;> exact h
  | OrderBook i n ap av bp bv => exact h
  | OrderFilled id p v =>
    simp only [handle, OrderFilledMessageHandler]
    split_ifs <;> exact h
  | OrderStatus id f r fees => exact status_activeOrders_le s id f r fees h
  | TradeTicks i n ap av bp bv =>
    simp only [handle]
    apply tick_preserves (fun t => t.mActiveOrders ≤ ACTIVE_ORDERS_LIMIT)
    · intro _ _ h; exact h
    · intro _ _ h; exact h
    · intro _ _ h; exact h
    · intro a r i h; exact sellTier_activeOrders_le a r i h
    · intro a r i h; exact buyTier_activeOrders_le a r i h
    · exact h

theorem active_orders_cap_preserved_witness :
    ActiveOrdersOk { initial true 0 1 with mActiveOrders := 8, mFutMid := 1000 } ∧
    ActiveOrdersOk (handle ⟨1, 2147483647⟩
      { initial true 0 1 with mActiveOrders := 8, mFutMid := 1000 }
      (Event.TradeTicks Instrument.ETF 0 [1100] [] [900] [])).1 ∧
    (handle ⟨1, 2147483647⟩
      { initial true 0 1 with mActiveOrders := 8, mFutMid := 1000 }
      (Event.TradeTicks Instrument.ETF 0 [1100] [] [900] [])).1.mActiveOrders = 10 :=
  ⟨by decide, active_orders_cap_preserved _ _ _ (by decide), by decide⟩

/-! ## C3 -/

theorem status_terminal_eq (s : State) (id f : Nat) (fees : Int)
    (hb : id ∉ s.mBids) (ha : id ∉ s.mAsks) :
    (OrderStatusMessageHandler s id f 0 fees).1 =
      { s with mActiveOrders := s.mActiveOrders - 1,
               mActiveVolume := toLong (s.mActiveVolume - f) } := by
  simp [OrderStatusMessageHandler, hb, ha]

theorem status_terminal_not_mem (s : State) (id f : Nat) (fees : Int)
    (hd : id ∉ s.mBids ∨ id ∉ s.mAsks) :
    id ∉ (OrderStatusMessageHandler s id f 0 fees).1.mBids ∧
    id ∉ (OrderStatusMessageHandler s id f 0 fees).1.mAsks := by
  simp only [OrderStatusMessageHandler]
  by_cases hb : id ∈ s.mBids
  · have ha : id ∉ s.mAsks := by tauto
    simp [hb, ha]
  · by_cases ha : id ∈ s.mAsks
    · simp [hb, ha]
    · simp [hb, ha]

theorem status_terminal_activeOrders (s : State) (id f : Nat) (fees : Int) :
    (OrderStatusMessageHandler s id f 0 fees).1.mActiveOrders = s.mActiveOrders - 1 := by
  simp only [OrderStatusMessageHandler]
  split_ifs <;> simp

/-- C3 (counterexample).  After one ETF tick from the initial state (flag set) the bids 0, 1, 2
are outstanding and `mActiveOrders = 3`.  The terminal status of bid 0 delivered once gives
`mActiveOrders = 2`; delivered a second time it gives `mActiveOrders = 1`, although the
registry still holds two identifiers, and the state after the second delivery differs from
the state after the first. -/
theorem terminal_status_twice_counterexample :
    (OrderStatusMessageHandler (run ⟨1, 2147483647⟩ (initial true 0 1)
        [Event.TradeTicks Instrument.ETF 0 [1100] [] [900] []]) 0 20 0 0).1.mActiveOrders = 2 ∧
    (OrderStatusMessageHandler (OrderStatusMessageHandler (run ⟨1, 2147483647⟩ (initial true 0 1)
        [Event.TradeTicks Instrument.ETF 0 [1100] [] [900] []]) 0 20 0 0).1
          0 20 0 0).1.mActiveOrders = 1 ∧
    (OrderStatusMessageHandler (OrderStatusMessageHandler (run ⟨1, 2147483647⟩ (initial true 0 1)
        [Event.TradeTicks Instrument.ETF 0 [1100] [] [900] []]) 0 20 0 0).1 0 20 0 0).1 ≠
    (OrderStatusMessageHandler (run ⟨1, 2147483647⟩ (initial true 0 1)
        [Event.TradeTicks Instrument.ETF 0 [1100] [] [900] []]) 0 20 0 0).1 := by
  refine ⟨by decide, by decide, ?_⟩
  intro h
  have h2 := congrArg State.mActiveOrders h
  revert h2
  decide

/-- C3 (amended).  For every state, identifier and fill volume, with the identifier not in
both registries at once: after the first delivery of a terminal status the identifier is in
neither registry and `mActiveOrders` is one lower; the second delivery finds no registry entry
and leaves the registries, `mActiveBid`, `mActiveAsk` and every other member unchanged, but it
lowers `mActiveOrders` by one again (two in total) and subtracts the fill volume from
`mActiveVolume` again. -/
theorem terminal_status_twice (s : State) (id f : Nat) (fees : Int)
    (hd : id ∉ s.mBids ∨ id ∉ s.mAsks) :
    id ∉ (OrderStatusMessageHandler s id f 0 fees).1.mBids ∧
    id ∉ (OrderStatusMessageHandler s id f 0 fees).1.mAsks ∧
    (OrderStatusMessageHandler s id f 0 fees).1.mActiveOrders = s.mActiveOrders - 1 ∧
    (OrderStatusMessageHandler (OrderStatusMessageHandler s id f 0 fees).1 id f 0 fees).1 =
      { (OrderStatusMessageHandler s id f 0 fees).1 with
          mActiveOrders := s.mActiveOrders - 2,
          mActiveVolume :=
            toLong ((OrderStatusMessageHandler s id f 0 fees).1.mActiveVolume - f) } := by
  obtain ⟨hb, ha⟩ := status_terminal_not_mem s id f fees hd
  refine ⟨hb, ha, status_terminal_activeOrders s id f fees, ?_⟩
  rw [status_terminal_eq _ id f fees hb ha, status_terminal_activeOrders]
  have : s.mActiveOrders - 1 - 1 = s.mActiveOrders - 2 := by omega
  rw [this]

theorem terminal_status_twice_witness :
    (OrderStatusMessageHandler (OrderStatusMessageHandler
        { initial false 0 1 with mBids := {5}, mActiveOrders := 1, mActiveBid := 20,
                                 mActiveVolume := 20 } 5 20 0 0).1 5 20 0 0).1.mActiveOrders
      = -1 := by
  have h := (terminal_status_twice
    { initial false 0 1 with mBids := {5}, mActiveOrders := 1, mActiveBid := 20,
                             mActiveVolume := 20 } 5 20 0 (Or.inr (by decide))).2.2.2
  rw [h]
  decide

/-! ## C4 -/

/-- Invariant carried through the loops of a tick: the count matches the registry, the
registered identifiers are below the counter, and the counter cannot wrap before the
active-order cap stops the loops. -/
theorem sellTier_count (a : Int) (r : Outcome) (i : Fin 3)
    (h : CountMatches r.1 ∧ (∀ id ∈ r.1.mBids ∪ r.1.mAsks, id < r.1.mOrderIds) ∧
      (r.1.mOrderIds : Int) + (10 - r.1.mActiveOrders) < 18446744073709551616) :
    CountMatches (sellTier a r i).1 ∧
      (∀ id ∈ (sellTier a r i).1.mBids ∪ (sellTier a r i).1.mAsks,
        id < (sellTier a r i).1.mOrderIds) ∧
      ((sellTier a r i).1.mOrderIds : Int) + (10 - (sellTier a r i).1.mActiveOrders)
        < 18446744073709551616 := by
  obtain ⟨hc, hfresh, hw⟩ := h
  simp only [sellTier]
  split_ifs with h1 h2
  · exact ⟨hc, hfresh, hw⟩
  · simp only [ACTIVE_ORDERS_LIMIT] at h1
    have hnot : r.1.mOrderIds ∉ r.1.mAsks := fun hm =>
      absurd (hfresh _ (Finset.mem_union_right _ hm)) (lt_irrefl _)
    have hid : uadd r.1.mOrderIds 1 = r.1.mOrderIds + 1 := by
      unfold uadd; omega
    simp only [CountMatches] at hc ⊢
    refine ⟨?_, ?_, ?_⟩
    · rw [Finset.card_insert_of_not_mem hnot, hc]; push_cast; ring
    · intro id hid'
      rw [hid]
      rcases Finset.mem_union.mp hid' with hb | ha
      · exact Nat.lt_succ_of_lt (hfresh _ (Finset.mem_union_left _ hb))
      · rcases Finset.mem_insert.mp ha with rfl | ha
        · exact Nat.lt_succ_self _
        · exact Nat.lt_succ_of_lt (hfresh _ (Finset.mem_union_right _ ha))
    · rw [hid]; push_cast; omega
  · exact ⟨hc, hfresh, hw⟩

theorem buyTier_count (a : Int) (r : Outcome) (i : Fin 3)
    (h : CountMatches r.1 ∧ (∀ id ∈ r.1.mBids ∪ r.1.mAsks, id < r.1.mOrderIds) ∧
      (r.1.mOrderIds : Int) + (10 - r.1.mActiveOrders) < 18446744073709551616) :
    CountMatches (buyTier a r i).1 ∧
      (∀ id ∈ (buyTier a r i).1.mBids ∪ (buyTier a r i).1.mAsks,
        id < (buyTier a r i).1.mOrderIds) ∧
      ((buyTier a r i).1.mOrderIds : Int) + (10 - (buyTier a r i).1.mActiveOrders)
        < 18446744073709551616 := by
  obtain ⟨hc, hfresh, hw⟩ := h
  simp only [buyTier]
  split_ifs with h1 h2
  · exact ⟨hc, hfresh, hw⟩
  · simp only [ACTIVE_ORDERS_LIMIT] at h1
    have hnot : r.1.mOrderIds ∉ r.1.mBids := fun hm =>
      absurd (hfresh _ (Finset.mem_union_left _ hm)) (lt_irrefl _)
    have hid : uadd r.1.mOrderIds 1 = r.1.mOrderIds + 1 := by
      unfold uadd; omega
    simp only [CountMatches] at hc ⊢
    refine ⟨?_, ?_, ?_⟩
    · rw [Finset.card_insert_of_not_mem hnot, hc]; push_cast; ring
    · intro id hid'
      rw [hid]
      rcases Finset.mem_union.mp hid' with hb | ha
      · rcases Finset.mem_insert.mp hb with rfl | hb
        · exact Nat.lt_succ_self _
        · exact Nat.lt_succ_of_lt (hfresh _ (Finset.mem_union_left _ hb))
      · exact Nat.lt_succ_of_lt (hfresh _ (Finset.mem_union_right _ ha))
    · rw [hid]; push_cast; omega
  · exact ⟨hc, hfresh, hw⟩

theorem status_count (s : State) (id f r : Nat) (fees : Int) (hc : CountMatches s)
    (hk : r = 0 → id ∈ s.mBids ∨ id ∈ s.mAsks) :
    CountMatches (OrderStatusMessageHandler s id f r fees).1 := by
  simp only [OrderStatusMessageHandler, CountMatches] at hc ⊢
  split_ifs with h0 hb ha
  · have hpos : 0 < s.mBids.card := Finset.card_pos.mpr ⟨id, hb⟩
    simp only [Finset.card_erase_of_mem hb]
    rw [hc]; push_cast; omega
  · have hpos : 0 < s.mAsks.card := Finset.card_pos.mpr ⟨id, ha⟩
    simp only [Finset.card_erase_of_mem ha]
    rw [hc]; push_cast; omega
  · rcases hk h0 with h | h
    · exact absurd h hb
    · exact absurd h ha
  · exact hc

/-- C4 (counterexample).  After one ETF tick from the initial state (flag set) the registry
holds three bids and `mActiveOrders = 3`.  A terminal status for identifier 99, which is not in
the registry, lowers `mActiveOrders` to 2 while the registry still holds three identifiers. -/
theorem count_matches_registry_counterexample :
    CountMatches (run ⟨1, 2147483647⟩ (initial true 0 1)
        [Event.TradeTicks Instrument.ETF 0 [1100] [] [900] []]) ∧
    ¬ CountMatches (handle ⟨1, 2147483647⟩ (run ⟨1, 2147483647⟩ (initial true 0 1)
        [Event.TradeTicks Instrument.ETF 0 [1100] [] [900] []])
        (Event.OrderStatus 99 0 0 0)).1 := by
  constructor <;> decide

/-- C4 (amended).  If `mActiveOrders` equals the number of identifiers in the primary registry
(size of `mBids` plus size of `mAsks`) before a handler runs, it equals that number after the
handler returns, for every handler and every argument other than a terminal status
(`remainingVolume = 0`) for an identifier that is in neither `mBids` nor `mAsks`, provided the
identifiers the ladders draw from `mOrderIds` are new (all registered identifiers are below the
counter, which does not wrap).  An error event for an identifier not in the registry is
covered: it changes nothing. -/
theorem count_matches_registry_preserved (L : Limits) (s : State) (e : Event)
    (hc : CountMatches s) (hf : FreshIds s) (hk : KnownTerminal s e) :
    CountMatches (handle L s e).1 := by
  cases e with
  | Disconnect => exact hc
  | Error id msg =>
    simp only [handle, ErrorMessageHandler]
    split_ifs with h
    · exact status_count s id 0 0 0 hc (fun _ => h.2.symm)
    · exact hc
  | HedgeFilled id p v =>
    simp only [handle, HedgeFilledMessageHandler]
    split_ifs <;> exact hc
  | OrderBook i n ap av bp bv => exact hc
  | OrderFilled id p v =>
    simp only [handle, OrderFilledMessageHandler]
    split_ifs <;> exact hc
  | OrderStatus id f r fees => exact status_count s id f r fees hc hk
  | TradeTicks i n ap av bp bv =>
    simp only [handle]
    refine (tick_preserves (fun t => CountMatches t ∧
      (∀ id ∈ t.mBids ∪ t.mAsks, id < t.mOrderIds) ∧
      (t.mOrderIds : Int) + (10 - t.mActiveOrders) < 18446744073709551616)
      ?_ ?_ ?_ ?_ ?_ s i n ap av bp bv ?_).1
    · intro _ _ h; exact h
    · intro _ _ h; exact h
    · intro _ _ h; exact h
    · intro a r i h; exact sellTier_count a r i h
    · intro a r i h; exact buyTier_count a r i h
    · refine ⟨hc, hf.2, ?_⟩
      have h1 := hf.1
      simp only [CountMatches] at hc
      rw [hc]; push_cast; omega

theorem count_matches_registry_preserved_witness :
    CountMatches (handle ⟨1, 2147483647⟩ (run ⟨1, 2147483647⟩ (initial true 0 1)
        [Event.TradeTicks Instrument.ETF 0 [1100] [] [900] []])
        (Event.OrderStatus 1 30 0 0)).1 ∧
    (handle ⟨1, 2147483647⟩ (run ⟨1, 2147483647⟩ (initial true 0 1)
        [Event.TradeTicks Instrument.ETF 0 [1100] [] [900] []])
        (Event.OrderStatus 1 30 0 0)).1.mActiveOrders = 2 :=
  ⟨count_matches_registry_preserved _ _ _ (by decide) (by decide) (by decide), by decide⟩

/-! ## C5 -/

theorem toLong_add_umul (x : Int) (v p : Nat)
    (h1 : -9223372036854775808 ≤ x + (v : Int) * p) (h2 : x + (v : Int) * p < 9223372036854775808) :
    toLong (x + umul v p) = x + (v : Int) * p := by
  unfold toLong umul
  push_cast
  omega

theorem toLong_sub_umul (x : Int) (v p : Nat)
    (h1 : -9223372036854775808 ≤ x - (v : Int) * p) (h2 : x - (v : Int) * p < 9223372036854775808) :
    toLong (x - umul v p) = x - (v : Int) * p := by
  unfold toLong umul
  push_cast
  omega

/-- C5 (counterexample).  After one ETF tick (bid 100, ask 300) from the initial state with the
flag set, the asks 0, 1, 2 are outstanding.  A fill of ask 0 for volume `2^64 - 1` at price 1
raises `mPosition` from 0 to 1 and lowers `mETFProfit` from 0 to -1: `(long)volume` is -1 and
the profit is computed modulo `2^64`.  The specification gives `mPosition - volume` and
`mETFProfit + volume * price`. -/
theorem order_filled_counterexample :
    0 ∈ (run ⟨1, 2147483647⟩ (initial true 0 1)
        [Event.TradeTicks Instrument.ETF 0 [300] [] [100] []]).mAsks ∧
    (run ⟨1, 2147483647⟩ (initial true 0 1)
        [Event.TradeTicks Instrument.ETF 0 [300] [] [100] []]).mPosition = 0 ∧
    (run ⟨1, 2147483647⟩ (initial true 0 1)
        [Event.TradeTicks Instrument.ETF 0 [300] [] [100] []]).mETFProfit = 0 ∧
    (OrderFilledMessageHandler ⟨1, 2147483647⟩ (run ⟨1, 2147483647⟩ (initial true 0 1)
        [Event.TradeTicks Instrument.ETF 0 [300] [] [100] []])
        0 1 18446744073709551615).1.mPosition = 1 ∧
    (OrderFilledMessageHandler ⟨1, 2147483647⟩ (run ⟨1, 2147483647⟩ (initial true 0 1)
        [Event.TradeTicks Instrument.ETF 0 [300] [] [100] []])
        0 1 18446744073709551615).1.mETFProfit = -1 := by
  refine ⟨by decide, by decide, by decide, by decide, by decide⟩

/-- C5 (amended).  For every fill event `(id, price, volume)` with `volume < 2^63` and with the
updated profit within the signed 64-bit range: if `id` is an outstanding primary ask, the
handler issues exactly one hedge order, side BUY, for the fill volume at
`MAX_ASK_NEAREST_TICK`, with the identifier drawn from `mNextMessageId`, registers that
identifier in the hedge-buy set, and sets `mPosition := mPosition - volume` and
`mETFProfit := mETFProfit + volume * price`; if `id` is an outstanding primary bid (and not an
ask) it issues exactly one hedge SELL at `MIN_BId_NEARST_TICK` for the same volume, registers
it in the hedge-sell set and sets `mPosition := mPosition + volume`,
`mETFProfit := mETFProfit - volume * price`; if `id` is in neither set it issues nothing and
changes nothing. -/
theorem order_filled_hedges (L : Limits) (s : State) (id price volume : Nat)
    (hv : volume < 9223372036854775808)
    (hask : id ∈ s.mAsks →
      -9223372036854775808 ≤ s.mETFProfit + (volume : Int) * price ∧
      s.mETFProfit + (volume : Int) * price < 9223372036854775808)
    (hbid : id ∉ s.mAsks → id ∈ s.mBids →
      -9223372036854775808 ≤ s.mETFProfit - (volume : Int) * price ∧
      s.mETFProfit - (volume : Int) * price < 9223372036854775808) :
    (id ∈ s.mAsks →
      OrderFilledMessageHandler L s id price volume =
        ({ s with mPosition := s.mPosition - volume,
                  mETFProfit := s.mETFProfit + (volume : Int) * price,
                  mHedgeBidId := s.mNextMessageId,
                  mNextMessageId := uadd s.mNextMessageId 1,
                  mHedgeBids := insert s.mNextMessageId s.mHedgeBids },
         [Command.SendHedgeOrder s.mNextMessageId Side.BUY (MAX_ASK_NEAREST_TICK L) volume])) ∧
    (id ∉ s.mAsks → id ∈ s.mBids →
      OrderFilledMessageHandler L s id price volume =
        ({ s with mPosition := s.mPosition + volume,
                  mETFProfit := s.mETFProfit - (volume : Int) * price,
                  mHedgeAskId := s.mNextMessageId,
                  mNextMessageId := uadd s.mNextMessageId 1,
                  mHedgeAsks := insert s.mNextMessageId s.mHedgeAsks },
         [Command.SendHedgeOrder s.mNextMessageId Side.SELL (MIN_BId_NEARST_TICK L) volume])) ∧
    (id ∉ s.mAsks → id ∉ s.mBids → OrderFilledMessageHandler L s id price volume = (s, [])) := by
  have hvol : toLong (volume : Int) = volume := toLong_of_range _ (by omega) (by omega)
  refine ⟨fun ha => ?_, fun ha hb => ?_, fun ha hb => ?_⟩
  · obtain ⟨h1, h2⟩ := hask ha
    simp only [OrderFilledMessageHandler, if_pos ha, hvol, toLong_add_umul _ _ _ h1 h2]
  · obtain ⟨h1, h2⟩ := hbid ha hb
    simp only [OrderFilledMessageHandler, if_neg ha, if_pos hb, hvol,
      toLong_sub_umul _ _ _ h1 h2]
  · simp only [OrderFilledMessageHandler, if_neg ha, if_neg hb]

theorem order_filled_hedges_witness :
    (OrderFilledMessageHandler ⟨1, 2147483647⟩
        { initial false 3 1 with mAsks := {0, 1, 2}, mActiveOrders := 3, mActiveAsk := 60,
                                 mActiveVolume := 60, mETFMid := 400 } 0 500 20).2 =
      [Command.SendHedgeOrder 1 Side.BUY 2147483600 20] ∧
    (OrderFilledMessageHandler ⟨1, 2147483647⟩
        { initial false 3 1 with mAsks := {0, 1, 2}, mActiveOrders := 3, mActiveAsk := 60,
                                 mActiveVolume := 60, mETFMid := 400 } 0 500 20).1.mPosition
      = -20 ∧
    (OrderFilledMessageHandler ⟨1, 2147483647⟩
        { initial false 3 1 with mAsks := {0, 1, 2}, mActiveOrders := 3, mActiveAsk := 60,
                                 mActiveVolume := 60, mETFMid := 400 } 0 500 20).1.mETFProfit
      = 10000 ∧
    (OrderFilledMessageHandler ⟨1, 2147483647⟩
        { initial false 3 1 with mAsks := {0, 1, 2}, mActiveOrders := 3, mActiveAsk := 60,
                                 mActiveVolume := 60, mETFMid := 400 } 0 500 20).1.mHedgeBids
      = {1} := by
  have h := (order_filled_hedges ⟨1, 2147483647⟩
      { initial false 3 1 with mAsks := {0, 1, 2}, mActiveOrders := 3, mActiveAsk := 60,
                               mActiveVolume := 60, mETFMid := 400 } 0 500 20
      (by decide) (fun _ => by decide) (fun _ _ => by decide)).1 (by decide)
  rw [h]
  refine ⟨by decide, by decide, by decide, by decide⟩

/-! ## C6 -/

theorem sellTier_mids (a : Int) (r : Outcome) (i : Fin 3) :
    (sellTier a r i).1.mETFMid = r.1.mETFMid ∧ (sellTier a r i).1.mFutMid = r.1.mFutMid := by
  simp only [sellTier]; split_ifs <;> exact ⟨rfl, rfl⟩

theorem buyTier_mids (a : Int) (r : Outcome) (i : Fin 3) :
    (buyTier a r i).1.mETFMid = r.1.mETFMid ∧ (buyTier a r i).1.mFutMid = r.1.mFutMid := by
  simp only [buyTier]; split_ifs <;> exact ⟨rfl, rfl⟩

theorem quote_mids (s : State) :
    (quote s).1.mETFMid = s.mETFMid ∧ (quote s).1.mFutMid = s.mFutMid := by
  apply quote_preserves (fun t => t.mETFMid = s.mETFMid ∧ t.mFutMid = s.mFutMid)
  · intro _ _ h; exact h
  · intro a r i h; rw [(sellTier_mids a r i).1, (sellTier_mids a r i).2]; exact h
  · intro a r i h; rw [(buyTier_mids a r i).1, (buyTier_mids a r i).2]; exact h
  · exact ⟨rfl, rfl⟩

/-- The mid of the ticked instrument after the handler is the value assigned on line 235-239
or 256-260, or the old mid when the market is empty. -/
theorem tick_midOf (s : State) (i : Instrument) (n : Nat) (ap av bp bv : List Nat) :
    midOf i (TradeTicksMessageHandler s i n ap av bp bv).1 =
      (newMid (bp.headD 0) (ap.headD 0)).getD (midOf i s) := by
  unfold TradeTicksMessageHandler
  cases i with
  | FUTURE =>
    simp only
    cases newMid (bp.headD 0) (ap.headD 0) <;> rfl
  | ETF =>
    simp only
    cases newMid (bp.headD 0) (ap.headD 0) with
    | none => rfl
    | some m =>
      simp only
      split_ifs
      · simp only [midOf, Option.getD_some]
        rw [(quote_mids _).1]
      · rfl

theorem newMid_of_small (b a : Nat)
    (h2 : b ≠ 0 → a ≠ 0 → b + a < 18446744073709551616)
    (h1 : b = 0 ∨ a = 0 → b + a < 9223372036854775808) :
    newMid b a =
      if b = 0 ∧ a = 0 then none
      else if b = 0 then some (a : Int)
      else if a = 0 then some (b : Int)
      else some (((b + a) / 200 * 100 : Nat) : Int) := by
  unfold newMid
  split_ifs with h3 h4 h5
  · rfl
  · have := h1 (Or.inl h4)
    rw [toLong_of_range _ (by omega) (by omega)]
  · have := h1 (Or.inr h5)
    rw [toLong_of_range _ (by omega) (by omega)]
  · have := h2 h4 h5
    have h : umul (uadd b a / 200) 100 = (b + a) / 200 * 100 := by
      unfold umul uadd; omega
    rw [h, toLong_of_range _ (by omega) (by omega)]

/-- C6 (counterexample).  An ETF tick with best bid `2^64 - 100` and best ask 300: the sum is
taken in `unsigned long` and wraps to 200, so the mid becomes 100, not
`((b + a) / 200) * 100 = 9223372036854775900`, and `(b + a) / 2 < mid + 100` fails. -/
theorem mid_update_counterexample :
    (TradeTicksMessageHandler (initial false 0 1) Instrument.ETF 0
        [300] [] [18446744073709551516] []).1.mETFMid = 100 ∧
    ((18446744073709551516 + 300) / 200 * 100 : Int) = 9223372036854775900 ∧
    ¬ ((18446744073709551516 + 300) / 2 < (100 + 100 : Int)) := by
  refine ⟨by decide, by decide, by decide⟩

/-- C6 (amended).  For every trade tick whose best bid `b` and best ask `a` stay within
64-bit arithmetic (`b + a < 2^64` when both are non-zero, so that the `unsigned long` sum does
not wrap; the non-zero price below `2^63` when one of them is zero, so that it fits the
`signed long` mid), the instrument's mid (`mETFMid` for the ETF, `mFutMid` for the Future)
becomes `((b + a) / 200) * 100` with integer division when both are non-zero, becomes the
non-zero price when exactly one is zero, and is left unchanged when both are zero; in the
two-sided case the new mid is a multiple of 100 with `mid ≤ (b + a) / 2 < mid + 100`. -/
theorem mid_update (s : State) (i : Instrument) (n : Nat) (ap av bp bv : List Nat)
    (h2 : bp.headD 0 ≠ 0 → ap.headD 0 ≠ 0 →
      bp.headD 0 + ap.headD 0 < 18446744073709551616)
    (h1 : bp.headD 0 = 0 ∨ ap.headD 0 = 0 →
      bp.headD 0 + ap.headD 0 < 9223372036854775808) :
    midOf i (TradeTicksMessageHandler s i n ap av bp bv).1 =
      (if bp.headD 0 = 0 ∧ ap.headD 0 = 0 then midOf i s
       else if bp.headD 0 = 0 then (ap.headD 0 : Int)
       else if ap.headD 0 = 0 then (bp.headD 0 : Int)
       else (((bp.headD 0 + ap.headD 0) / 200 * 100 : Nat) : Int)) ∧
    (bp.headD 0 ≠ 0 → ap.headD 0 ≠ 0 →
      midOf i (TradeTicksMessageHandler s i n ap av bp bv).1 % 100 = 0 ∧
      midOf i (TradeTicksMessageHandler s i n ap av bp bv).1
        ≤ ((bp.headD 0 + ap.headD 0) / 2 : Nat) ∧
      (((bp.headD 0 + ap.headD 0) / 2 : Nat) : Int)
        < midOf i (TradeTicksMessageHandler s i n ap av bp bv).1 + 100) := by
  rw [tick_midOf, newMid_of_small _ _ h2 h1]
  constructor
  · split_ifs <;> rfl
  · intro h3 h4
    rw [if_neg (fun h => h3 h.1), if_neg h3, if_neg h4]
    simp only [Option.getD_some]
    omega

theorem mid_update_witness :
    (TradeTicksMessageHandler (initial false 0 1) Instrument.ETF 0 [300] [] [100] []).1.mETFMid
      = 200 ∧
    (TradeTicksMessageHandler (initial false 0 1) Instrument.FUTURE 0 [300] [] [0] []).1.mFutMid
      = 300 ∧
    (TradeTicksMessageHandler { initial false 0 1 with mETFMid := 700 } Instrument.ETF 0
      [0] [] [0] []).1.mETFMid = 700 := by
  have h1 := (mid_update (initial false 0 1) Instrument.ETF 0 [300] [] [100] []
    (fun _ _ => by decide) (fun _ => by decide)).1
  have h2 := (mid_update (initial false 0 1) Instrument.FUTURE 0 [300] [] [0] []
    (fun _ _ => by decide) (fun _ => by decide)).1
  have h3 := (mid_update { initial false 0 1 with mETFMid := 700 } Instrument.ETF 0 [0] [] [0] []
    (fun _ _ => by decide) (fun _ => by decide)).1
  exact ⟨h1.trans (by decide), h2.trans (by decide), h3.trans (by decide)⟩

/-! ## Ladder lemmas -/

theorem sellTier_fire (a : Int) (r : Outcome) (i : Fin 3)
    (h1 : r.1.mActiveOrders < ACTIVE_ORDERS_LIMIT) (h2 : 0 < a.tdiv (ORDER_SHARE i)) :
    sellTier a r i =
      ({ r.1 with mAskId := r.1.mOrderIds,
                  mOrderIds := uadd r.1.mOrderIds 1,
                  mAsks := insert r.1.mOrderIds r.1.mAsks,
                  mActiveVolume := r.1.mActiveVolume + a.tdiv (ORDER_SHARE i),
                  mActiveOrders := r.1.mActiveOrders + 1,
                  mActiveAsk := r.1.mActiveAsk + a.tdiv (ORDER_SHARE i) },
       r.2 ++ [Command.SendInsertOrder r.1.mOrderIds Side.SELL
                 (r.1.mETFMid + ORDER_OFFSETS i) (a.tdiv (ORDER_SHARE i))
                 Lifespan.GOOD_FOR_DAY]) := by
  simp only [sellTier, if_pos h1, if_neg (not_le.mpr h2)]

theorem buyTier_fire (a : Int) (r : Outcome) (i : Fin 3)
    (h1 : r.1.mActiveOrders < ACTIVE_ORDERS_LIMIT) (h2 : 0 < a.tdiv (ORDER_SHARE i)) :
    buyTier a r i =
      ({ r.1 with mBidId := r.1.mOrderIds,
                  mOrderIds := uadd r.1.mOrderIds 1,
                  mBids := insert r.1.mOrderIds r.1.mBids,
                  mActiveVolume := r.1.mActiveVolume + a.tdiv (ORDER_SHARE i),
                  mActiveOrders := r.1.mActiveOrders + 1,
                  mActiveBid := r.1.mActiveBid + a.tdiv (ORDER_SHARE i) },
       r.2 ++ [Command.SendInsertOrder r.1.mOrderIds Side.BUY
                 (r.1.mETFMid + 100 - ORDER_OFFSETS i) (a.tdiv (ORDER_SHARE i))
                 Lifespan.GOOD_FOR_DAY]) := by
  simp only [buyTier, if_pos h1, if_neg (not_le.mpr h2)]

theorem buyTier_skip (a : Int) (r : Outcome) (i : Fin 3)
    (h : ¬ (r.1.mActiveOrders < ACTIVE_ORDERS_LIMIT ∧ 0 < a.tdiv (ORDER_SHARE i))) :
    buyTier a r i = r := by
  simp only [buyTier]
  split_ifs with h1 h2
  · rfl
  · exact absurd ⟨h1, not_le.mp h2⟩ h
  · rfl

/-- With at least three free order slots and a capacity of at least 6, all three sell tiers
fire. -/
theorem sellLadder_all_fire (s : State) (cs : List Command)
    (h1 : s.mActiveOrders + 2 < ACTIVE_ORDERS_LIMIT) (h2 : 6 ≤ sellAvailable s) :
    sellLadder (s, cs) =
      ({ s with mAskId := uadd (uadd s.mOrderIds 1) 1,
                mOrderIds := uadd (uadd (uadd s.mOrderIds 1) 1) 1,
                mAsks := insert (uadd (uadd s.mOrderIds 1) 1)
                  (insert (uadd s.mOrderIds 1) (insert s.mOrderIds s.mAsks)),
                mActiveVolume := s.mActiveVolume + (sellAvailable s).tdiv 3
                  + (sellAvailable s).tdiv 2 + (sellAvailable s).tdiv 6,
                mActiveOrders := s.mActiveOrders + 1 + 1 + 1,
                mActiveAsk := s.mActiveAsk + (sellAvailable s).tdiv 3
                  + (sellAvailable s).tdiv 2 + (sellAvailable s).tdiv 6 },
       cs ++ [Command.SendInsertOrder s.mOrderIds Side.SELL (s.mETFMid + 100)
                ((sellAvailable s).tdiv 3) Lifespan.GOOD_FOR_DAY,
              Command.SendInsertOrder (uadd s.mOrderIds 1) Side.SELL (s.mETFMid + 200)
                ((sellAvailable s).tdiv 2) Lifespan.GOOD_FOR_DAY,
              Command.SendInsertOrder (uadd (uadd s.mOrderIds 1) 1) Side.SELL (s.mETFMid + 300)
                ((sellAvailable s).tdiv 6) Lifespan.GOOD_FOR_DAY]) := by
  have ha : 0 ≤ sellAvailable s := by omega
  have e3 : (sellAvailable s).tdiv 3 = sellAvailable s / 3 :=
    Int.tdiv_eq_ediv ha (by norm_num)
  have e2 : (sellAvailable s).tdiv 2 = sellAvailable s / 2 :=
    Int.tdiv_eq_ediv ha (by norm_num)
  have e6 : (sellAvailable s).tdiv 6 = sellAvailable s / 6 :=
    Int.tdiv_eq_ediv ha (by norm_num)
  simp only [ACTIVE_ORDERS_LIMIT] at h1
  rw [sellLadder_eq]
  rw [sellTier_fire _ (s, cs) 0 (by simp only [ACTIVE_ORDERS_LIMIT]; omega)
    (by show 0 < (sellAvailable s).tdiv 3; omega)]
  rw [sellTier_fire _ _ 1 (by simp only [ACTIVE_ORDERS_LIMIT]; omega)
    (by show 0 < (sellAvailable s).tdiv 2; omega)]
  rw [sellTier_fire _ _ 2 (by simp only [ACTIVE_ORDERS_LIMIT]; omega)
    (by show 0 < (sellAvailable s).tdiv 6; omega)]
  simp only [ORDER_SHARE, ORDER_OFFSETS, List.append_assoc, List.singleton_append,
    List.cons_append, List.nil_append]

theorem buyTier_filter_isSell (a : Int) (r : Outcome) (i : Fin 3) :
    (buyTier a r i).2.filter isSell = r.2.filter isSell := by
  simp only [buyTier]
  split_ifs <;> simp [List.filter_append, isSell]

theorem buyLadder_filter_isSell (r : Outcome) :
    (buyLadder r).2.filter isSell = r.2.filter isSell := by
  rw [buyLadder_eq, buyTier_filter_isSell, buyTier_filter_isSell, buyTier_filter_isSell]

/-- The handler on an ETF tick with a non-empty market and the flag set: the sell ladder
under its condition, then the buy ladder under its condition. -/
theorem tick_etf_quotes (s : State) (n : Nat) (ap av bp bv : List Nat) (m : Int)
    (hm : newMid (bp.headD 0) (ap.headD 0) = some m) (hflag : s.mFutOrder = true) :
    TradeTicksMessageHandler s Instrument.ETF n ap av bp bv =
      quote { s with mETFMid := m } := by
  simp only [TradeTicksMessageHandler, hm, hflag, if_true]

/-! ## C7 -/

/-- C7 (counterexample).  In the state of the specification's example (`mPosition = 90`, no
active orders or volume, flag set, hedge mid 1400) an ETF tick with mid 1000 computes the sell
capacity `min(60, 90 - 0 + 100, 200) = 60` and issues sell orders for volumes 20, 30 and 10,
not 3, 5 and 1. -/
theorem ladder_clamp_counterexample :
    sellAvailable { initial true 0 1 with mPosition := 90, mFutMid := 1400 } = 60 ∧
    (TradeTicksMessageHandler { initial true 0 1 with mPosition := 90, mFutMid := 1400 }
        Instrument.ETF 0 [1100] [] [900] []).2 =
      [Command.SendInsertOrder 0 Side.SELL 1100 20 Lifespan.GOOD_FOR_DAY,
       Command.SendInsertOrder 1 Side.SELL 1200 30 Lifespan.GOOD_FOR_DAY,
       Command.SendInsertOrder 2 Side.SELL 1300 10 Lifespan.GOOD_FOR_DAY] := by
  constructor <;> decide

/-- C7 (amended).  In a state with `mPosition = -90`, `mActiveAsk = 0`, `mAskVolume = 0`, no
active orders and the fresh-hedge flag set, an ETF tick with a non-empty market whose sell
condition holds computes the sell-ladder capacity `min(60, -90 - 0 + 100, 200 - 0) = 10` and
issues exactly three sell orders, with volumes 3, 5 and 1 (10/3, 10/2, 10/6) at mid + 100,
mid + 200 and mid + 300; the sell ladder raises `mActiveOrders` by 3, and the tick continues
with the buy ladder when its condition holds. -/
theorem ladder_capacity_clamp (s : State) (n : Nat) (ap av bp bv : List Nat) (m : Int)
    (hpos : s.mPosition = -90) (haa : s.mActiveAsk = 0) (hav : s.mAskVolume = 0)
    (hao : s.mActiveOrders = 0) (hflag : s.mFutOrder = true)
    (hm : newMid (bp.headD 0) (ap.headD 0) = some m) (hsell : m < s.mFutMid + 300) :
    sellAvailable { s with mETFMid := m, mFutOrder := false } = 10 ∧
    (TradeTicksMessageHandler s Instrument.ETF n ap av bp bv).2.filter isSell =
      [Command.SendInsertOrder s.mOrderIds Side.SELL (m + 100) 3 Lifespan.GOOD_FOR_DAY,
       Command.SendInsertOrder (uadd s.mOrderIds 1) Side.SELL (m + 200) 5 Lifespan.GOOD_FOR_DAY,
       Command.SendInsertOrder (uadd (uadd s.mOrderIds 1) 1) Side.SELL (m + 300) 1
         Lifespan.GOOD_FOR_DAY] ∧
    (sellLadder ({ s with mETFMid := m, mFutOrder := false }, [])).1.mActiveOrders =
      s.mActiveOrders + 3 ∧
    TradeTicksMessageHandler s Instrument.ETF n ap av bp bv =
      (if m + 300 > s.mFutMid then
        buyLadder (sellLadder ({ s with mETFMid := m, mFutOrder := false }, []))
       else sellLadder ({ s with mETFMid := m, mFutOrder := false }, [])) := by
  have hav10 : sellAvailable { s with mETFMid := m, mFutOrder := false } = 10 := by
    simp only [sellAvailable, hpos, haa, hav, POSITION_LIMIT, ACTIVE_VOLUME_LIMIT]
    decide
  have hl := sellLadder_all_fire { s with mETFMid := m, mFutOrder := false } []
    (by simp only [hao, ACTIVE_ORDERS_LIMIT]; decide) (by rw [hav10]; decide)
  rw [hav10] at hl
  have hmids : (sellLadder ({ s with mETFMid := m, mFutOrder := false }, [])).1.mETFMid = m ∧
      (sellLadder ({ s with mETFMid := m, mFutOrder := false }, [])).1.mFutMid = s.mFutMid := by
    rw [hl]; exact ⟨rfl, rfl⟩
  have ht : TradeTicksMessageHandler s Instrument.ETF n ap av bp bv =
      (if m + 300 > s.mFutMid then
        buyLadder (sellLadder ({ s with mETFMid := m, mFutOrder := false }, []))
       else sellLadder ({ s with mETFMid := m, mFutOrder := false }, [])) := by
    rw [tick_etf_quotes s n ap av bp bv m hm hflag]
    simp only [quote, sellPart, if_pos hsell, hmids.1, hmids.2]
  refine ⟨hav10, ?_, ?_, ht⟩
  · rw [ht]
    have h3 : (10 : Int).tdiv 3 = 3 := by decide
    have h2 : (10 : Int).tdiv 2 = 5 := by decide
    have h6 : (10 : Int).tdiv 6 = 1 := by decide
    split_ifs
    · rw [buyLadder_filter_isSell, hl]
      simp [isSell, h3, h2, h6]
    · rw [hl]
      simp [isSell, h3, h2, h6]
  · rw [hl]
    simp only [hao]
    decide

theorem ladder_capacity_clamp_witness :
    (TradeTicksMessageHandler { initial true 0 1 with mPosition := -90, mFutMid := 1400 }
        Instrument.ETF 0 [1100] [] [900] []).2.filter isSell =
      [Command.SendInsertOrder 0 Side.SELL 1100 3 Lifespan.GOOD_FOR_DAY,
       Command.SendInsertOrder 1 Side.SELL 1200 5 Lifespan.GOOD_FOR_DAY,
       Command.SendInsertOrder 2 Side.SELL 1300 1 Lifespan.GOOD_FOR_DAY] :=
  (ladder_capacity_clamp { initial true 0 1 with mPosition := -90, mFutMid := 1400 }
    0 [1100] [] [900] [] 1000 (by decide) (by decide) (by decide) (by decide) (by decide)
    (by decide) (by decide)).2.1

/-! ## Sell capacity: line 267 and the specification's formula -/

/-- The capacity of line 267 and the capacity worded in the specification agree in every state
with `mAskVolume = 0` and the position within the limit: there the third term is not the
smallest in either. -/
theorem sellAvailable_eq_spec (s : State) (hv : s.mAskVolume = 0)
    (hp : s.mPosition ≤ POSITION_LIMIT) : sellAvailable s = sellAvailableSpec s := by
  simp only [sellAvailable, sellAvailableSpec, hv, POSITION_LIMIT, ACTIVE_VOLUME_LIMIT] at *
  omega

/-- Outside the states a run can reach, the capacity of line 267 and the specification's formula
can differ.  State: four asks outstanding (identifiers 0 to 3), `mActiveAsk = 170`,
`mPosition = 150`, `mAskVolume = 0`, hedge mid 1400, flag set.  On an ETF tick with mid 1000
the source computes `min(60, 150 - 170 + 100, 200 - mAskVolume) = 60`, where the
specification's `min(60, 80, 200 - mActiveAsk)` is 30, and issues sell orders for 20, 30 and
10, which takes `mActiveAsk` to 230, above `ACTIVE_VOLUME_LIMIT`.  No run from the start-up
state reaches this state (`run_noQuoteYet`). -/
theorem sell_capacity_reads_mAskVolume :
    sellAvailable { initial true 4 1 with
        mPosition := 150, mActiveAsk := 170, mActiveVolume := 170, mActiveOrders := 4,
        mAsks := {0, 1, 2, 3}, mFutMid := 1400 } = 60 ∧
    sellAvailableSpec { initial true 4 1 with
        mPosition := 150, mActiveAsk := 170, mActiveVolume := 170, mActiveOrders := 4,
        mAsks := {0, 1, 2, 3}, mFutMid := 1400 } = 30 ∧
    (TradeTicksMessageHandler { initial true 4 1 with
        mPosition := 150, mActiveAsk := 170, mActiveVolume := 170, mActiveOrders := 4,
        mAsks := {0, 1, 2, 3}, mFutMid := 1400 }
        Instrument.ETF 0 [1100] [] [900] []).2 =
      [Command.SendInsertOrder 4 Side.SELL 1100 20 Lifespan.GOOD_FOR_DAY,
       Command.SendInsertOrder 5 Side.SELL 1200 30 Lifespan.GOOD_FOR_DAY,
       Command.SendInsertOrder 6 Side.SELL 1300 10 Lifespan.GOOD_FOR_DAY] ∧
    (TradeTicksMessageHandler { initial true 4 1 with
        mPosition := 150, mActiveAsk := 170, mActiveVolume := 170, mActiveOrders := 4,
        mAsks := {0, 1, 2, 3}, mFutMid := 1400 }
        Instrument.ETF 0 [1100] [] [900] []).1.mActiveAsk = 230 := by
  refine ⟨by decide, by decide, by decide, by decide⟩

/-! ## C9 -/

theorem sellPart_mids (s : State) :
    (sellPart s).1.mETFMid = s.mETFMid ∧ (sellPart s).1.mFutMid = s.mFutMid := by
  have hS : ∀ r : Outcome, (sellLadder r).1.mETFMid = r.1.mETFMid ∧
      (sellLadder r).1.mFutMid = r.1.mFutMid := fun r => by
    rw [sellLadder_eq]
    simp only [(sellTier_mids _ _ _).1, (sellTier_mids _ _ _).2, and_self]
  unfold sellPart
  simp only
  split_ifs
  · rw [(hS _).1, (hS _).2]; exact ⟨rfl, rfl⟩
  · exact ⟨rfl, rfl⟩

/-- Every primary order issued so far in the tick is a sell at `m + 100` or more or a buy at
`m` or less. -/
theorem sellTier_prices (m a : Int) (r : Outcome) (i : Fin 3)
    (h : r.1.mETFMid = m ∧ ∀ c ∈ r.2, (isSell c = true → m + 100 ≤ priceOf c) ∧
      (isBuy c = true → priceOf c ≤ m)) :
    (sellTier a r i).1.mETFMid = m ∧ ∀ c ∈ (sellTier a r i).2,
      (isSell c = true → m + 100 ≤ priceOf c) ∧ (isBuy c = true → priceOf c ≤ m) := by
  obtain ⟨hm, hc⟩ := h
  refine ⟨by rw [(sellTier_mids a r i).1]; exact hm, ?_⟩
  simp only [sellTier]
  split_ifs with h1 h2
  · exact hc
  · intro c hmem
    rcases List.mem_append.mp hmem with h | h
    · exact hc c h
    · rw [List.mem_singleton] at h
      subst h
      refine ⟨fun _ => ?_, fun hb => ?_⟩
      · simp only [priceOf, hm]
        fin_cases i <;> simp [ORDER_OFFSETS]
      · simp [isBuy] at hb
  · exact hc

theorem buyTier_prices (m a : Int) (r : Outcome) (i : Fin 3)
    (h : r.1.mETFMid = m ∧ ∀ c ∈ r.2, (isSell c = true → m + 100 ≤ priceOf c) ∧
      (isBuy c = true → priceOf c ≤ m)) :
    (buyTier a r i).1.mETFMid = m ∧ ∀ c ∈ (buyTier a r i).2,
      (isSell c = true → m + 100 ≤ priceOf c) ∧ (isBuy c = true → priceOf c ≤ m) := by
  obtain ⟨hm, hc⟩ := h
  refine ⟨by rw [(buyTier_mids a r i).1]; exact hm, ?_⟩
  simp only [buyTier]
  split_ifs with h1 h2
  · exact hc
  · intro c hmem
    rcases List.mem_append.mp hmem with h | h
    · exact hc c h
    · rw [List.mem_singleton] at h
      subst h
      refine ⟨fun hs => ?_, fun _ => ?_⟩
      · simp [isSell] at hs
      · simp only [priceOf, hm]
        fin_cases i <;> simp [ORDER_OFFSETS]
  · exact hc

theorem quote_prices (s : State) :
    ∀ c ∈ (quote s).2, (isSell c = true → s.mETFMid + 100 ≤ priceOf c) ∧
      (isBuy c = true → priceOf c ≤ s.mETFMid) := by
  have hS : ∀ r : Outcome,
      (r.1.mETFMid = s.mETFMid ∧ ∀ c ∈ r.2, (isSell c = true → s.mETFMid + 100 ≤ priceOf c) ∧
        (isBuy c = true → priceOf c ≤ s.mETFMid)) →
      ((sellLadder r).1.mETFMid = s.mETFMid ∧ ∀ c ∈ (sellLadder r).2,
        (isSell c = true → s.mETFMid + 100 ≤ priceOf c) ∧
        (isBuy c = true → priceOf c ≤ s.mETFMid)) := fun r hr => by
    rw [sellLadder_eq]
    exact sellTier_prices _ _ _ _ (sellTier_prices _ _ _ _ (sellTier_prices _ _ _ _ hr))
  have hB : ∀ r : Outcome,
      (r.1.mETFMid = s.mETFMid ∧ ∀ c ∈ r.2, (isSell c = true → s.mETFMid + 100 ≤ priceOf c) ∧
        (isBuy c = true → priceOf c ≤ s.mETFMid)) →
      ((buyLadder r).1.mETFMid = s.mETFMid ∧ ∀ c ∈ (buyLadder r).2,
        (isSell c = true → s.mETFMid + 100 ≤ priceOf c) ∧
        (isBuy c = true → priceOf c ≤ s.mETFMid)) := fun r hr => by
    rw [buyLadder_eq]
    exact buyTier_prices _ _ _ _ (buyTier_prices _ _ _ _ (buyTier_prices _ _ _ _ hr))
  have h0 : (sellPart s).1.mETFMid = s.mETFMid ∧ ∀ c ∈ (sellPart s).2,
      (isSell c = true → s.mETFMid + 100 ≤ priceOf c) ∧
      (isBuy c = true → priceOf c ≤ s.mETFMid) := by
    unfold sellPart
    simp only
    split_ifs
    · exact hS _ ⟨rfl, fun c hc => absurd hc (List.not_mem_nil c)⟩
    · exact ⟨rfl, fun c hc => absurd hc (List.not_mem_nil c)⟩
  unfold quote
  simp only
  split_ifs
  · exact (hB _ h0).2
  · exact h0.2

/-- C9.  On an ETF tick that reaches the quoting step (non-empty market giving mid `m`, flag
set): when `m + 300 > mFutMid` the handler's outcome is the three buy iterations, tiers 0, 1, 2
in order, applied to the outcome `sellPart` of the sell ladder of the same tick, with the
capacity `min(60, -mPosition + POSITION_LIMIT - mActiveBid, ACTIVE_VOLUME_LIMIT - mActiveVolume)`
computed once from the counters the sell ladder left; otherwise it is the sell outcome.  A buy
iteration issues an order exactly when `mActiveOrders < 10` and `available / {3,2,6}[i] > 0`:
one BUY at `mETFMid + 100 - {100,200,300}[i]` (mid, mid - 100, mid - 200) for volume
`available / {3,2,6}[i]`, with the identifier registered in `mBids` and the counters raised;
otherwise it changes nothing.  Every buy price issued in the tick is strictly below every sell
price issued in the tick. -/
theorem buy_ladder (s : State) (n : Nat) (ap av bp bv : List Nat) (m : Int)
    (hm : newMid (bp.headD 0) (ap.headD 0) = some m) (hflag : s.mFutOrder = true) :
    TradeTicksMessageHandler s Instrument.ETF n ap av bp bv =
      (if m + 300 > s.mFutMid then
        buyTier (min 60 (min
            (-(sellPart { s with mETFMid := m }).1.mPosition + POSITION_LIMIT
              - (sellPart { s with mETFMid := m }).1.mActiveBid)
            (ACTIVE_VOLUME_LIMIT - (sellPart { s with mETFMid := m }).1.mActiveVolume)))
          (buyTier (min 60 (min
              (-(sellPart { s with mETFMid := m }).1.mPosition + POSITION_LIMIT
                - (sellPart { s with mETFMid := m }).1.mActiveBid)
              (ACTIVE_VOLUME_LIMIT - (sellPart { s with mETFMid := m }).1.mActiveVolume)))
            (buyTier (min 60 (min
                (-(sellPart { s with mETFMid := m }).1.mPosition + POSITION_LIMIT
                  - (sellPart { s with mETFMid := m }).1.mActiveBid)
                (ACTIVE_VOLUME_LIMIT - (sellPart { s with mETFMid := m }).1.mActiveVolume)))
              (sellPart { s with mETFMid := m }) 0) 1) 2
       else sellPart { s with mETFMid := m }) ∧
    (∀ (a : Int) (r : Outcome) (i : Fin 3),
      buyTier a r i =
        (if r.1.mActiveOrders < 10 ∧ 0 < a.tdiv (ORDER_SHARE i) then
          ({ r.1 with mBidId := r.1.mOrderIds,
                      mOrderIds := uadd r.1.mOrderIds 1,
                      mBids := insert r.1.mOrderIds r.1.mBids,
                      mActiveVolume := r.1.mActiveVolume + a.tdiv (ORDER_SHARE i),
                      mActiveOrders := r.1.mActiveOrders + 1,
                      mActiveBid := r.1.mActiveBid + a.tdiv (ORDER_SHARE i) },
           r.2 ++ [Command.SendInsertOrder r.1.mOrderIds Side.BUY
                     (r.1.mETFMid + 100 - ORDER_OFFSETS i) (a.tdiv (ORDER_SHARE i))
                     Lifespan.GOOD_FOR_DAY])
         else r)) ∧
    (ORDER_SHARE 0 = 3 ∧ ORDER_SHARE 1 = 2 ∧ ORDER_SHARE 2 = 6) ∧
    (∀ x : Int, x + 100 - ORDER_OFFSETS 0 = x ∧ x + 100 - ORDER_OFFSETS 1 = x - 100 ∧
      x + 100 - ORDER_OFFSETS 2 = x - 200) ∧
    (∀ c₁ ∈ (TradeTicksMessageHandler s Instrument.ETF n ap av bp bv).2,
      ∀ c₂ ∈ (TradeTicksMessageHandler s Instrument.ETF n ap av bp bv).2,
        isBuy c₁ = true → isSell c₂ = true → priceOf c₁ < priceOf c₂) := by
  have ht := tick_etf_quotes s n ap av bp bv m hm hflag
  refine ⟨?_, ?_, ⟨rfl, rfl, rfl⟩, ?_, ?_⟩
  · rw [ht]
    simp only [quote, (sellPart_mids _).1, (sellPart_mids _).2, buyLadder_eq, buyAvailable]
  · intro a r i
    split_ifs with h
    · exact buyTier_fire a r i h.1 h.2
    · exact buyTier_skip a r i h
  · intro x
    simp only [ORDER_OFFSETS]
    omega
  · rw [ht]
    intro c₁ h₁ c₂ h₂ hb hs
    have p₁ := ((quote_prices _ c₁ h₁).2 hb)
    have p₂ := ((quote_prices _ c₂ h₂).1 hs)
    omega

theorem buy_ladder_witness :
    (TradeTicksMessageHandler { initial true 0 1 with mFutMid := 1000 }
        Instrument.ETF 0 [1100] [] [900] []).2 =
      [Command.SendInsertOrder 0 Side.SELL 1100 20 Lifespan.GOOD_FOR_DAY,
       Command.SendInsertOrder 1 Side.SELL 1200 30 Lifespan.GOOD_FOR_DAY,
       Command.SendInsertOrder 2 Side.SELL 1300 10 Lifespan.GOOD_FOR_DAY,
       Command.SendInsertOrder 3 Side.BUY 1000 20 Lifespan.GOOD_FOR_DAY,
       Command.SendInsertOrder 4 Side.BUY 900 30 Lifespan.GOOD_FOR_DAY,
       Command.SendInsertOrder 5 Side.BUY 800 10 Lifespan.GOOD_FOR_DAY] := by
  have h := (buy_ladder { initial true 0 1 with mFutMid := 1000 } 0 [1100] [] [900] [] 1000
    (by decide) (by decide)).1
  rw [h]
  decide

/-! ## C10 -/

/-- C10.  From a state with zero position, no active orders and no active ask volume
(`mActiveAsk = 0`, `mAskVolume = 0`), hedge mid 1400 and the fresh-hedge flag set, an ETF tick
that sets the primary mid to 1000 issues exactly three orders, all SELL, at prices 1100, 1200,
1300 in that order, for volumes 20, 30, 10 and with consecutive identifiers drawn from
`mOrderIds`; it issues no BUY order, because `1000 + 300 > 1400` is false. -/
theorem end_to_end_sell_only (s : State) (n : Nat) (ap av bp bv : List Nat)
    (hpos : s.mPosition = 0) (hao : s.mActiveOrders = 0) (haa : s.mActiveAsk = 0)
    (hav : s.mAskVolume = 0) (hfut : s.mFutMid = 1400) (hflag : s.mFutOrder = true)
    (hm : newMid (bp.headD 0) (ap.headD 0) = some 1000) :
    (TradeTicksMessageHandler s Instrument.ETF n ap av bp bv).2 =
      [Command.SendInsertOrder s.mOrderIds Side.SELL 1100 20 Lifespan.GOOD_FOR_DAY,
       Command.SendInsertOrder (uadd s.mOrderIds 1) Side.SELL 1200 30 Lifespan.GOOD_FOR_DAY,
       Command.SendInsertOrder (uadd (uadd s.mOrderIds 1) 1) Side.SELL 1300 10
         Lifespan.GOOD_FOR_DAY] ∧
    (TradeTicksMessageHandler s Instrument.ETF n ap av bp bv).2.filter isBuy = [] ∧
    (TradeTicksMessageHandler s Instrument.ETF n ap av bp bv).1.mActiveOrders = 3 ∧
    ¬ ((1000 : Int) + 300 > 1400) := by
  have hav60 : sellAvailable { s with mETFMid := 1000, mFutOrder := false } = 60 := by
    simp only [sellAvailable, hpos, haa, hav, POSITION_LIMIT, ACTIVE_VOLUME_LIMIT]
    decide
  have hl := sellLadder_all_fire { s with mETFMid := 1000, mFutOrder := false } []
    (by simp only [hao, ACTIVE_ORDERS_LIMIT]; decide) (by rw [hav60]; decide)
  rw [hav60] at hl
  have h3 : (60 : Int).tdiv 3 = 20 := by decide
  have h2 : (60 : Int).tdiv 2 = 30 := by decide
  have h6 : (60 : Int).tdiv 6 = 10 := by decide
  rw [h3, h2, h6] at hl
  have hsell : (1000 : Int) < s.mFutMid + 300 := by rw [hfut]; decide
  have hbuy : ¬ ((1000 : Int) + 300 > s.mFutMid) := by rw [hfut]; decide
  have hsp : sellPart { s with mETFMid := 1000 } =
      sellLadder ({ s with mETFMid := 1000, mFutOrder := false }, []) := by
    simp only [sellPart, if_pos hsell]
  have ht : TradeTicksMessageHandler s Instrument.ETF n ap av bp bv =
      sellLadder ({ s with mETFMid := 1000, mFutOrder := false }, []) := by
    rw [tick_etf_quotes s n ap av bp bv 1000 hm hflag]
    simp only [quote, (sellPart_mids _).1, (sellPart_mids _).2, if_neg hbuy]
    exact hsp
  rw [ht, hl]
  refine ⟨?_, ?_, ?_, by decide⟩
  · simp
  · simp [isBuy]
  · simp only [hao]; decide

theorem end_to_end_sell_only_witness :
    (TradeTicksMessageHandler { initial true 0 1 with mFutMid := 1400 }
        Instrument.ETF 0 [1100] [] [900] []).2 =
      [Command.SendInsertOrder 0 Side.SELL 1100 20 Lifespan.GOOD_FOR_DAY,
       Command.SendInsertOrder 1 Side.SELL 1200 30 Lifespan.GOOD_FOR_DAY,
       Command.SendInsertOrder 2 Side.SELL 1300 10 Lifespan.GOOD_FOR_DAY] :=
  (end_to_end_sell_only { initial true 0 1 with mFutMid := 1400 } 0 [1100] [] [900] []
    (by decide) (by decide) (by decide) (by decide) (by decide) (by decide) (by decide)).1

/-! ## C11 -/

/-- C11 (the code on a Future tick).  For every state and every Future trade tick, the handler
leaves the fresh-hedge flag `mFutOrder` false: line 231 assigns `false`, and no line of the
source assigns `true`.  The ETF tick that follows, whatever its market, therefore issues no
order.  At the start-up state with the flag unset, a Future tick (bid 900, ask 1100) followed
by an ETF tick (bid 900, ask 1100) sends no command. -/
theorem future_tick_clears_flag (s : State) (n : Nat) (ap av bp bv : List Nat)
    (n' : Nat) (ap' av' bp' bv' : List Nat) :
    (TradeTicksMessageHandler s Instrument.FUTURE n ap av bp bv).1.mFutOrder = false ∧
    (TradeTicksMessageHandler (TradeTicksMessageHandler s Instrument.FUTURE n ap av bp bv).1
      Instrument.ETF n' ap' av' bp' bv').2 = [] ∧
    runCommands ⟨1, 2147483647⟩ (initial false 0 1)
      [Event.TradeTicks Instrument.FUTURE 0 [1100] [] [900] [],
       Event.TradeTicks Instrument.ETF 1 [1100] [] [900] []] = [] := by
  have h1 : (TradeTicksMessageHandler s Instrument.FUTURE n ap av bp bv).1.mFutOrder = false := by
    simp only [TradeTicksMessageHandler]
    cases newMid (bp.headD 0) (ap.headD 0) <;> rfl
  refine ⟨h1, ?_, by decide⟩
  simp only [TradeTicksMessageHandler]
  cases newMid (bp'.headD 0) (ap'.headD 0) with
  | none => rfl
  | some m =>
    simp only []
    rw [if_neg]
    simp only [TradeTicksMessageHandler] at h1
    simpa using h1

/-! ## C12 -/

/-- Ladder identifiers are drawn from `mOrderIds` (lines 272, 287) and leave `mNextMessageId`
untouched. -/
theorem tiers_mNextMessageId (a : Int) (r : Outcome) (i : Fin 3) :
    (sellTier a r i).1.mNextMessageId = r.1.mNextMessageId ∧
    (buyTier a r i).1.mNextMessageId = r.1.mNextMessageId := by
  simp only [sellTier, buyTier]
  constructor <;> split_ifs <;> rfl

/-- Hedge identifiers are drawn from `mNextMessageId` (lines 144, 160) and leave `mOrderIds`
untouched. -/
theorem orderFilled_mOrderIds (L : Limits) (s : State) (id p v : Nat) :
    (OrderFilledMessageHandler L s id p v).1.mOrderIds = s.mOrderIds ∧
    ∀ c ∈ (OrderFilledMessageHandler L s id p v).2, idOf c = s.mNextMessageId := by
  simp only [OrderFilledMessageHandler]
  split_ifs <;> simp [idOf]

/-- C12 (the code at the failing input).  Start-up state with the flag set, `mOrderIds = 0`
and `mNextMessageId = 1`.  An ETF tick (bid 900, ask 1100) issues the bids 0, 1, 2 from
`mOrderIds`; the fill of bid 0 then issues a hedge order whose identifier is drawn from the
other counter, `mNextMessageId`, and is 1: the identifiers sent are 0, 1, 2, 1, and the hedge
identifier 1 equals the outstanding bid 1. -/
theorem hedge_id_repeats_order_id :
    (runCommands ⟨1, 2147483647⟩ (initial true 0 1)
      [Event.TradeTicks Instrument.ETF 0 [1100] [] [900] [],
       Event.OrderFilled 0 500 20]).map idOf = [0, 1, 2, 1] ∧
    runCommands ⟨1, 2147483647⟩ (initial true 0 1)
      [Event.TradeTicks Instrument.ETF 0 [1100] [] [900] [],
       Event.OrderFilled 0 500 20] =
      [Command.SendInsertOrder 0 Side.BUY 1000 20 Lifespan.GOOD_FOR_DAY,
       Command.SendInsertOrder 1 Side.BUY 900 30 Lifespan.GOOD_FOR_DAY,
       Command.SendInsertOrder 2 Side.BUY 800 10 Lifespan.GOOD_FOR_DAY,
       Command.SendHedgeOrder 1 Side.SELL 100 20] ∧
    1 ∈ (run ⟨1, 2147483647⟩ (initial true 0 1)
      [Event.TradeTicks Instrument.ETF 0 [1100] [] [900] [],
       Event.OrderFilled 0 500 20]).mBids ∧
    1 ∈ (run ⟨1, 2147483647⟩ (initial true 0 1)
      [Event.TradeTicks Instrument.ETF 0 [1100] [] [900] [],
       Event.OrderFilled 0 500 20]).mHedgeAsks ∧
    ¬ ((runCommands ⟨1, 2147483647⟩ (initial true 0 1)
      [Event.TradeTicks Instrument.ETF 0 [1100] [] [900] [],
       Event.OrderFilled 0 500 20]).map idOf).Nodup := by
  refine ⟨by decide, by decide, by decide, by decide, by decide⟩

/-! ## C13 -/

/-- C13 (counterexample).  After one ETF tick from the start-up state (flag set) the bids
0, 1, 2 are outstanding with `mActiveBid = 60` and `mActiveVolume = 60`.  A terminal status for
bid 0 with fill volume `2^64 - 1` raises both counters to 61: the subtraction is done in
`unsigned long` and wraps, where the specification subtracts the fill volume. -/
theorem terminal_status_counterexample :
    0 ∈ (run ⟨1, 2147483647⟩ (initial true 0 1)
        [Event.TradeTicks Instrument.ETF 0 [1100] [] [900] []]).mBids ∧
    (run ⟨1, 2147483647⟩ (initial true 0 1)
        [Event.TradeTicks Instrument.ETF 0 [1100] [] [900] []]).mActiveBid = 60 ∧
    (run ⟨1, 2147483647⟩ (initial true 0 1)
        [Event.TradeTicks Instrument.ETF 0 [1100] [] [900] []]).mActiveVolume = 60 ∧
    (OrderStatusMessageHandler (run ⟨1, 2147483647⟩ (initial true 0 1)
        [Event.TradeTicks Instrument.ETF 0 [1100] [] [900] []])
        0 18446744073709551615 0 0).1.mActiveBid = 61 ∧
    (OrderStatusMessageHandler (run ⟨1, 2147483647⟩ (initial true 0 1)
        [Event.TradeTicks Instrument.ETF 0 [1100] [] [900] []])
        0 18446744073709551615 0 0).1.mActiveVolume = 61 := by
  refine ⟨by decide, by decide, by decide, by decide, by decide⟩

/-- C13 (amended).  For every status event `(id, fillVolume, remainingVolume, fees)` with
`remainingVolume = 0` and with the decremented counters within the signed 64-bit range: if
`id` is in `mBids`, the handler removes it from `mBids`, decrements `mActiveBid` and
`mActiveVolume` by `fillVolume` and `mActiveOrders` by exactly one; if `id` is in `mAsks` (and
not in `mBids`), it removes it from `mAsks`, decrements `mActiveAsk` and `mActiveVolume` by
`fillVolume` and `mActiveOrders` by exactly one; every other member (`mPosition`, both profits,
both mids, the hedge sets) is unchanged and no command is sent.  For every status event with
`remainingVolume ≠ 0` the state is unchanged. -/
theorem terminal_status_update (s : State) (id f r : Nat) (fees : Int)
    (hb : id ∈ s.mBids → InLong (s.mActiveBid - f) ∧ InLong (s.mActiveVolume - f))
    (ha : id ∉ s.mBids → id ∈ s.mAsks →
      InLong (s.mActiveAsk - f) ∧ InLong (s.mActiveVolume - f)) :
    (id ∈ s.mBids →
      OrderStatusMessageHandler s id f 0 fees =
        ({ s with mBids := s.mBids.erase id,
                  mActiveBid := s.mActiveBid - f,
                  mActiveOrders := s.mActiveOrders - 1,
                  mActiveVolume := s.mActiveVolume - f }, [])) ∧
    (id ∉ s.mBids → id ∈ s.mAsks →
      OrderStatusMessageHandler s id f 0 fees =
        ({ s with mAsks := s.mAsks.erase id,
                  mActiveAsk := s.mActiveAsk - f,
                  mActiveOrders := s.mActiveOrders - 1,
                  mActiveVolume := s.mActiveVolume - f }, [])) ∧
    (r ≠ 0 → OrderStatusMessageHandler s id f r fees = (s, [])) := by
  refine ⟨fun h => ?_, fun h h' => ?_, fun h => ?_⟩
  · obtain ⟨⟨h1, h2⟩, ⟨h3, h4⟩⟩ := hb h
    simp only [OrderStatusMessageHandler, if_true, if_pos h, toLong_of_range _ h1 h2,
      toLong_of_range _ h3 h4]
  · obtain ⟨⟨h1, h2⟩, ⟨h3, h4⟩⟩ := ha h h'
    simp only [OrderStatusMessageHandler, if_true, if_neg h, if_pos h', toLong_of_range _ h1 h2,
      toLong_of_range _ h3 h4]
  · simp only [OrderStatusMessageHandler, if_neg h]

theorem terminal_status_update_witness :
    (OrderStatusMessageHandler (run ⟨1, 2147483647⟩ (initial true 0 1)
        [Event.TradeTicks Instrument.ETF 0 [1100] [] [900] []]) 1 30 0 0).1.mBids = {0, 2} ∧
    (OrderStatusMessageHandler (run ⟨1, 2147483647⟩ (initial true 0 1)
        [Event.TradeTicks Instrument.ETF 0 [1100] [] [900] []]) 1 30 0 0).1.mActiveBid = 30 ∧
    (OrderStatusMessageHandler (run ⟨1, 2147483647⟩ (initial true 0 1)
        [Event.TradeTicks Instrument.ETF 0 [1100] [] [900] []]) 1 30 0 0).1.mActiveVolume = 30 ∧
    (OrderStatusMessageHandler (run ⟨1, 2147483647⟩ (initial true 0 1)
        [Event.TradeTicks Instrument.ETF 0 [1100] [] [900] []]) 1 30 0 0).1.mActiveOrders = 2 := by
  have h := (terminal_status_update (run ⟨1, 2147483647⟩ (initial true 0 1)
      [Event.TradeTicks Instrument.ETF 0 [1100] [] [900] []]) 1 30 0 0
      (fun _ => by decide) (fun h => absurd (by decide) h)).1 (by decide)
  rw [h]
  refine ⟨by decide, by decide, by decide, by decide⟩

/-! ## C14 -/

theorem toLong_sub_zero (x : Int) (h : InLong x) : toLong (x - ((0 : Nat) : Int)) = x := by
  obtain ⟨h1, h2⟩ := h
  rw [Nat.cast_zero, sub_zero, toLong_of_range _ h1 h2]

/-- C14 (counterexample).  After one ETF tick from the start-up state (flag set,
`mOrderIds = 0`) the bids 0, 1, 2 are outstanding.  An error event for identifier 0 changes
nothing, because of the test `clientOrderId != 0` on line 56: bid 0 stays registered and
`mActiveOrders` stays 3, where `OrderStatus(0, 0, 0, 0)` removes it and gives 2. -/
theorem error_for_id_zero_ignored :
    0 ∈ (run ⟨1, 2147483647⟩ (initial true 0 1)
        [Event.TradeTicks Instrument.ETF 0 [1100] [] [900] []]).mBids ∧
    0 ∈ (ErrorMessageHandler (run ⟨1, 2147483647⟩ (initial true 0 1)
        [Event.TradeTicks Instrument.ETF 0 [1100] [] [900] []]) 0 "rejected").1.mBids ∧
    (ErrorMessageHandler (run ⟨1, 2147483647⟩ (initial true 0 1)
        [Event.TradeTicks Instrument.ETF 0 [1100] [] [900] []]) 0 "rejected").1.mActiveOrders
      = 3 ∧
    0 ∉ (OrderStatusMessageHandler (run ⟨1, 2147483647⟩ (initial true 0 1)
        [Event.TradeTicks Instrument.ETF 0 [1100] [] [900] []]) 0 0 0 0).1.mBids ∧
    (OrderStatusMessageHandler (run ⟨1, 2147483647⟩ (initial true 0 1)
        [Event.TradeTicks Instrument.ETF 0 [1100] [] [900] []]) 0 0 0 0).1.mActiveOrders
      = 2 := by
  refine ⟨by decide, by decide, by decide, by decide, by decide⟩

/-- C14 (amended).  For every error event `(id, message)` with `id ≠ 0`: if `id` is in `mAsks`
or `mBids`, the outcome equals that of `OrderStatus(id, 0, 0, 0)`, which (the volume counters
being `signed long` values) removes the entry, decrements `mActiveOrders` by one and leaves the
volume counters and every other member untouched.  If `id = 0`, or `id` is in neither set, the
error changes no state and issues no command. -/
theorem error_handling (s : State) (id : Nat) (msg : String)
    (hr : InLong s.mActiveBid ∧ InLong s.mActiveAsk ∧ InLong s.mActiveVolume) :
    (id ≠ 0 → (id ∈ s.mAsks ∨ id ∈ s.mBids) →
      ErrorMessageHandler s id msg = OrderStatusMessageHandler s id 0 0 0) ∧
    (id ∈ s.mBids →
      OrderStatusMessageHandler s id 0 0 0 =
        ({ s with mBids := s.mBids.erase id, mActiveOrders := s.mActiveOrders - 1 }, [])) ∧
    (id ∉ s.mBids → id ∈ s.mAsks →
      OrderStatusMessageHandler s id 0 0 0 =
        ({ s with mAsks := s.mAsks.erase id, mActiveOrders := s.mActiveOrders - 1 }, [])) ∧
    (id = 0 ∨ (id ∉ s.mAsks ∧ id ∉ s.mBids) → ErrorMessageHandler s id msg = (s, [])) := by
  obtain ⟨hb, ha, hv⟩ := hr
  refine ⟨fun h0 hm => ?_, fun h => ?_, fun h h' => ?_, fun h => ?_⟩
  · simp only [ErrorMessageHandler, if_pos (And.intro h0 hm)]
  · simp only [OrderStatusMessageHandler, if_true, if_pos h, toLong_sub_zero _ hb,
      toLong_sub_zero _ hv]
  · simp only [OrderStatusMessageHandler, if_true, if_neg h, if_pos h', toLong_sub_zero _ ha,
      toLong_sub_zero _ hv]
  · have hn : ¬ (id ≠ 0 ∧ (id ∈ s.mAsks ∨ id ∈ s.mBids)) := by
      rintro ⟨h0, hm⟩
      rcases h with h | ⟨h1, h2⟩
      · exact h0 h
      · rcases hm with hm | hm
        · exact h1 hm
        · exact h2 hm
    simp only [ErrorMessageHandler, if_neg hn]

theorem error_handling_witness :
    (ErrorMessageHandler (run ⟨1, 2147483647⟩ (initial true 0 1)
        [Event.TradeTicks Instrument.ETF 0 [1100] [] [900] []]) 1 "rejected").1.mBids = {0, 2} ∧
    (ErrorMessageHandler (run ⟨1, 2147483647⟩ (initial true 0 1)
        [Event.TradeTicks Instrument.ETF 0 [1100] [] [900] []]) 1 "rejected").1.mActiveOrders
      = 2 ∧
    (ErrorMessageHandler (run ⟨1, 2147483647⟩ (initial true 0 1)
        [Event.TradeTicks Instrument.ETF 0 [1100] [] [900] []]) 1 "rejected").1.mActiveBid
      = 60 := by
  have h := error_handling (run ⟨1, 2147483647⟩ (initial true 0 1)
      [Event.TradeTicks Instrument.ETF 0 [1100] [] [900] []]) 1 "rejected"
      (by decide)
  rw [h.1 (by decide) (Or.inr (by decide)), h.2.1 (by decide)]
  refine ⟨by decide, by decide, by decide⟩

/-! ## C15 -/

/-- C15 (counterexample).  At the start-up state with the flag set the hedge mid is unknown
(`mFutMid = 0`).  An ETF tick (bid 900, ask 1100) leaves `mFutMid = 0` and issues three BUY
orders.  With hedge mid 1000, an ETF tick (bid 50, ask 100) sets `mETFMid = 0` and issues
three SELL orders. -/
theorem quotes_with_mid_zero :
    (TradeTicksMessageHandler (initial true 0 1) Instrument.ETF 0
        [1100] [] [900] []).1.mFutMid = 0 ∧
    (TradeTicksMessageHandler (initial true 0 1) Instrument.ETF 0 [1100] [] [900] []).2 =
      [Command.SendInsertOrder 0 Side.BUY 1000 20 Lifespan.GOOD_FOR_DAY,
       Command.SendInsertOrder 1 Side.BUY 900 30 Lifespan.GOOD_FOR_DAY,
       Command.SendInsertOrder 2 Side.BUY 800 10 Lifespan.GOOD_FOR_DAY] ∧
    (TradeTicksMessageHandler { initial true 0 1 with mFutMid := 1000 } Instrument.ETF 0
        [100] [] [50] []).1.mETFMid = 0 ∧
    (TradeTicksMessageHandler { initial true 0 1 with mFutMid := 1000 } Instrument.ETF 0
        [100] [] [50] []).2 =
      [Command.SendInsertOrder 0 Side.SELL 100 20 Lifespan.GOOD_FOR_DAY,
       Command.SendInsertOrder 1 Side.SELL 200 30 Lifespan.GOOD_FOR_DAY,
       Command.SendInsertOrder 2 Side.SELL 300 10 Lifespan.GOOD_FOR_DAY] := by
  refine ⟨by decide, by decide, by decide, by decide⟩

/-- C15 (amended).  For every ETF trade tick that carries no price (best bid and best ask both
zero) the handler issues no order and changes no state, whatever the fresh-hedge flag, the
mids and the ledger counters are.  A mid equal to 0 is not tested by the handler. -/
theorem no_quote_on_empty_market (s : State) (n : Nat) (ap av bp bv : List Nat)
    (hb : bp.headD 0 = 0) (ha : ap.headD 0 = 0) :
    TradeTicksMessageHandler s Instrument.ETF n ap av bp bv = (s, []) := by
  have h : newMid (bp.headD 0) (ap.headD 0) = none := by
    rw [hb, ha]; rfl
  simp only [TradeTicksMessageHandler, h]

theorem no_quote_on_empty_market_witness :
    (TradeTicksMessageHandler { initial true 0 1 with mFutMid := 1000, mETFMid := 1000 }
        Instrument.ETF 0 [0] [] [0] []).2 = [] ∧
    (TradeTicksMessageHandler { initial true 0 1 with mFutMid := 1000, mETFMid := 1000 }
        Instrument.ETF 0 [0] [] [0] []).1.mFutOrder = true := by
  rw [no_quote_on_empty_market _ 0 [0] [] [0] [] (by decide) (by decide)]
  exact ⟨rfl, by decide⟩

/-! ## C16 -/

/-- C16 (counterexample).  After an ETF tick (bid 100, ask 300) from the start-up state with
the flag set and a fill of ask 0, the hedge buy 1 is registered in `mHedgeBids`.  A hedge fill
for identifier 1 with volume `2^64 - 1` at price 1 lowers `mFutPosition` from 0 to -1 and
raises `mFutProfit` from 0 to 1: both updates are computed modulo `2^64`. -/
theorem hedge_filled_counterexample :
    1 ∈ (run ⟨1, 2147483647⟩ (initial true 0 1)
        [Event.TradeTicks Instrument.ETF 0 [300] [] [100] [],
         Event.OrderFilled 0 1 20]).mHedgeBids ∧
    (run ⟨1, 2147483647⟩ (initial true 0 1)
        [Event.TradeTicks Instrument.ETF 0 [300] [] [100] [],
         Event.OrderFilled 0 1 20]).mFutPosition = 0 ∧
    (run ⟨1, 2147483647⟩ (initial true 0 1)
        [Event.TradeTicks Instrument.ETF 0 [300] [] [100] [],
         Event.OrderFilled 0 1 20]).mFutProfit = 0 ∧
    (HedgeFilledMessageHandler (run ⟨1, 2147483647⟩ (initial true 0 1)
        [Event.TradeTicks Instrument.ETF 0 [300] [] [100] [],
         Event.OrderFilled 0 1 20]) 1 1 18446744073709551615).1.mFutPosition = -1 ∧
    (HedgeFilledMessageHandler (run ⟨1, 2147483647⟩ (initial true 0 1)
        [Event.TradeTicks Instrument.ETF 0 [300] [] [100] [],
         Event.OrderFilled 0 1 20]) 1 1 18446744073709551615).1.mFutProfit = 1 := by
  refine ⟨by decide, by decide, by decide, by decide, by decide⟩

/-- C16 (amended).  For every hedge fill event `(id, price, volume)` whose updated position and
profit are within the signed 64-bit range: if `id` is in `mHedgeBids` then `mFutPosition`
increases by `volume` and `mFutProfit` decreases by `volume * price`; otherwise if `id` is in
`mHedgeAsks` then `mFutPosition` decreases by `volume` and `mFutProfit` increases by
`volume * price`; otherwise nothing changes.  In every case every other member (`mPosition`,
`mETFProfit`, the registries, the active-order and active-volume counters) is unchanged and no
command is issued. -/
theorem hedge_filled (s : State) (id price volume : Nat)
    (hb : id ∈ s.mHedgeBids →
      InLong (s.mFutPosition + volume) ∧ InLong (s.mFutProfit - (volume : Int) * price))
    (ha : id ∉ s.mHedgeBids → id ∈ s.mHedgeAsks →
      InLong (s.mFutPosition - volume) ∧ InLong (s.mFutProfit + (volume : Int) * price)) :
    (id ∈ s.mHedgeBids →
      HedgeFilledMessageHandler s id price volume =
        ({ s with mFutPosition := s.mFutPosition + volume,
                  mFutProfit := s.mFutProfit - (volume : Int) * price }, [])) ∧
    (id ∉ s.mHedgeBids → id ∈ s.mHedgeAsks →
      HedgeFilledMessageHandler s id price volume =
        ({ s with mFutPosition := s.mFutPosition - volume,
                  mFutProfit := s.mFutProfit + (volume : Int) * price }, [])) ∧
    (id ∉ s.mHedgeBids → id ∉ s.mHedgeAsks →
      HedgeFilledMessageHandler s id price volume = (s, [])) := by
  refine ⟨fun h => ?_, fun h h' => ?_, fun h h' => ?_⟩
  · obtain ⟨⟨h1, h2⟩, ⟨h3, h4⟩⟩ := hb h
    simp only [HedgeFilledMessageHandler, if_pos h, toLong_of_range _ h1 h2,
      toLong_sub_umul _ _ _ h3 h4]
  · obtain ⟨⟨h1, h2⟩, ⟨h3, h4⟩⟩ := ha h h'
    simp only [HedgeFilledMessageHandler, if_neg h, if_pos h', toLong_of_range _ h1 h2,
      toLong_add_umul _ _ _ h3 h4]
  · simp only [HedgeFilledMessageHandler, if_neg h, if_neg h']

theorem hedge_filled_witness :
    (HedgeFilledMessageHandler (run ⟨1, 2147483647⟩ (initial true 0 1)
        [Event.TradeTicks Instrument.ETF 0 [300] [] [100] [],
         Event.OrderFilled 0 300 20]) 1 350 20).1.mFutPosition = 20 ∧
    (HedgeFilledMessageHandler (run ⟨1, 2147483647⟩ (initial true 0 1)
        [Event.TradeTicks Instrument.ETF 0 [300] [] [100] [],
         Event.OrderFilled 0 300 20]) 1 350 20).1.mFutProfit = -7000 ∧
    (HedgeFilledMessageHandler (run ⟨1, 2147483647⟩ (initial true 0 1)
        [Event.TradeTicks Instrument.ETF 0 [300] [] [100] [],
         Event.OrderFilled 0 300 20]) 1 350 20).1.mPosition = -20 := by
  have h := (hedge_filled (run ⟨1, 2147483647⟩ (initial true 0 1)
      [Event.TradeTicks Instrument.ETF 0 [300] [] [100] [],
       Event.OrderFilled 0 300 20]) 1 350 20
      (fun _ => by decide) (fun h => absurd (by decide) h)).1 (by decide)
  rw [h]
  refine ⟨by decide, by decide, by decide⟩

/-! ## C17 -/

/-- C17 (counterexample).  Start-up state with the flag set, `mOrderIds = 0` and
`mNextMessageId = 10`.  After an ETF tick (bids 0, 1, 2) and a fill of bid 0 the hedge sell 10
is registered; it is in neither `mBids` nor `mAsks`.  A terminal status event for identifier 10
with fill volume 20 lowers `mActiveOrders` from 3 to 2 and `mActiveVolume` from 60 to 40. -/
theorem status_for_hedge_id_counterexample :
    10 ∈ (run ⟨1, 2147483647⟩ (initial true 0 10)
        [Event.TradeTicks Instrument.ETF 0 [1100] [] [900] [],
         Event.OrderFilled 0 1000 20]).mHedgeAsks ∧
    riskCounters (run ⟨1, 2147483647⟩ (initial true 0 10)
        [Event.TradeTicks Instrument.ETF 0 [1100] [] [900] [],
         Event.OrderFilled 0 1000 20]) = (3, 60, 60, 0) ∧
    riskCounters (OrderStatusMessageHandler (run ⟨1, 2147483647⟩ (initial true 0 10)
        [Event.TradeTicks Instrument.ETF 0 [1100] [] [900] [],
         Event.OrderFilled 0 1000 20]) 10 20 0 0).1 = (2, 40, 60, 0) := by
  refine ⟨by decide, by decide, by decide⟩

/-- C17 (amended).  Issuing a hedge order in `OrderFilled` leaves `mActiveOrders`,
`mActiveVolume`, `mActiveBid` and `mActiveAsk` unchanged, and so does every hedge fill.  For an
identifier that is in neither `mBids` nor `mAsks` (a hedge identifier that is not also a primary
one), an error event and a status event with `remainingVolume ≠ 0` change nothing; a terminal
status event (`remainingVolume = 0`) leaves `mActiveBid`, `mActiveAsk` and every other member
unchanged but decrements `mActiveOrders` by one and subtracts the fill volume from
`mActiveVolume`. -/
theorem hedge_events_and_risk_counters (L : Limits) (s : State) (id : Nat)
    (hb : id ∉ s.mBids) (ha : id ∉ s.mAsks) :
    (∀ id' p v : Nat, riskCounters (OrderFilledMessageHandler L s id' p v).1 = riskCounters s) ∧
    (∀ id' p v : Nat, riskCounters (HedgeFilledMessageHandler s id' p v).1 = riskCounters s) ∧
    (∀ msg : String, ErrorMessageHandler s id msg = (s, [])) ∧
    (∀ (f r : Nat) (fees : Int), r ≠ 0 → OrderStatusMessageHandler s id f r fees = (s, [])) ∧
    (∀ (f : Nat) (fees : Int), OrderStatusMessageHandler s id f 0 fees =
      ({ s with mActiveOrders := s.mActiveOrders - 1,
                mActiveVolume := toLong (s.mActiveVolume - f) }, [])) := by
  refine ⟨fun id' p v => ?_, fun id' p v => ?_, fun msg => ?_, fun f r fees h => ?_,
    fun f fees => ?_⟩
  · simp only [OrderFilledMessageHandler, riskCounters]
    split_ifs <;> rfl
  · simp only [HedgeFilledMessageHandler, riskCounters]
    split_ifs <;> rfl
  · have hn : ¬ (id ≠ 0 ∧ (id ∈ s.mAsks ∨ id ∈ s.mBids)) := by
      rintro ⟨_, hm | hm⟩
      · exact ha hm
      · exact hb hm
    simp only [ErrorMessageHandler, if_neg hn]
  · simp only [OrderStatusMessageHandler, if_neg h]
  · simp only [OrderStatusMessageHandler, if_true, if_neg hb, if_neg ha]

theorem hedge_events_and_risk_counters_witness :
    riskCounters (OrderStatusMessageHandler (run ⟨1, 2147483647⟩ (initial true 0 10)
        [Event.TradeTicks Instrument.ETF 0 [1100] [] [900] [],
         Event.OrderFilled 0 1000 20]) 10 20 1 0).1 = (3, 60, 60, 0) ∧
    riskCounters (ErrorMessageHandler (run ⟨1, 2147483647⟩ (initial true 0 10)
        [Event.TradeTicks Instrument.ETF 0 [1100] [] [900] [],
         Event.OrderFilled 0 1000 20]) 10 "rejected").1 = (3, 60, 60, 0) := by
  have h := hedge_events_and_risk_counters ⟨1, 2147483647⟩
      (run ⟨1, 2147483647⟩ (initial true 0 10)
        [Event.TradeTicks Instrument.ETF 0 [1100] [] [900] [],
         Event.OrderFilled 0 1000 20]) 10 (by decide) (by decide)
  rw [h.2.2.2.1 20 1 0 (by decide), h.2.2.1 "rejected"]
  exact ⟨by decide, by decide⟩

/-! ## C18 -/

theorem tiers_mFutOrder (a : Int) (r : Outcome) (i : Fin 3) :
    (sellTier a r i).1.mFutOrder = r.1.mFutOrder ∧
    (buyTier a r i).1.mFutOrder = r.1.mFutOrder := by
  simp only [sellTier, buyTier]
  constructor <;> split_ifs <;> rfl

/-- The quoting step leaves the flag cleared (line 264; the loops do not write it). -/
theorem quote_mFutOrder (s : State) : (quote s).1.mFutOrder = false := by
  have hS : ∀ r : Outcome, (sellLadder r).1.mFutOrder = r.1.mFutOrder := fun r => by
    rw [sellLadder_eq, (tiers_mFutOrder _ _ _).1, (tiers_mFutOrder _ _ _).1,
      (tiers_mFutOrder _ _ _).1]
  have hB : ∀ r : Outcome, (buyLadder r).1.mFutOrder = r.1.mFutOrder := fun r => by
    rw [buyLadder_eq, (tiers_mFutOrder _ _ _).2, (tiers_mFutOrder _ _ _).2,
      (tiers_mFutOrder _ _ _).2]
  have hP : (sellPart s).1.mFutOrder = false := by
    unfold sellPart
    simp only
    split_ifs
    · rw [hS]
    · rfl
  unfold quote
  simp only
  split_ifs
  · rw [hB]; exact hP
  · exact hP

theorem tick_etf_flag_false (s : State) (n : Nat) (ap av bp bv : List Nat)
    (hflag : s.mFutOrder = false) :
    TradeTicksMessageHandler s Instrument.ETF n ap av bp bv =
      ({ s with mETFMid := (newMid (bp.headD 0) (ap.headD 0)).getD s.mETFMid }, []) := by
  simp only [TradeTicksMessageHandler]
  cases newMid (bp.headD 0) (ap.headD 0) with
  | none => rfl
  | some m => simp only [hflag, Option.getD_some]; rfl

theorem tick_etf_clears_flag (s : State) (n : Nat) (ap av bp bv : List Nat)
    (hne : ¬ (bp.headD 0 = 0 ∧ ap.headD 0 = 0)) :
    (TradeTicksMessageHandler s Instrument.ETF n ap av bp bv).1.mFutOrder = false := by
  have hm : ∃ m, newMid (bp.headD 0) (ap.headD 0) = some m := by
    unfold newMid
    rw [if_neg hne]
    split_ifs <;> exact ⟨_, rfl⟩
  obtain ⟨m, hm⟩ := hm
  simp only [TradeTicksMessageHandler, hm]
  split_ifs with h
  · exact quote_mFutOrder _
  · simpa using h

/-- C18 (counterexample).  At the start-up state with the flag set, an ETF tick with an empty
market (bid 0, ask 0) returns on line 254 without clearing the flag and issues nothing; the ETF
tick that follows it (bid 900, ask 1100), with no hedge tick between them, issues three
orders. -/
theorem second_etf_tick_quotes :
    (TradeTicksMessageHandler (initial true 0 1) Instrument.ETF 0 [0] [] [0] []).2 = [] ∧
    (TradeTicksMessageHandler (initial true 0 1) Instrument.ETF 0
        [0] [] [0] []).1.mFutOrder = true ∧
    (TradeTicksMessageHandler
        (TradeTicksMessageHandler (initial true 0 1) Instrument.ETF 0 [0] [] [0] []).1
        Instrument.ETF 1 [1100] [] [900] []).2 =
      [Command.SendInsertOrder 0 Side.BUY 1000 20 Lifespan.GOOD_FOR_DAY,
       Command.SendInsertOrder 1 Side.BUY 900 30 Lifespan.GOOD_FOR_DAY,
       Command.SendInsertOrder 2 Side.BUY 800 10 Lifespan.GOOD_FOR_DAY] := by
  refine ⟨by decide, by decide, by decide⟩

/-- C18 (amended).  An ETF trade tick handled while the fresh-hedge flag is false issues no
order and changes no state other than `mETFMid`; after any ETF tick with a non-empty market
(bid or ask non-zero) the flag is false; so of two consecutive ETF ticks with no hedge tick
between them, the first with a non-empty market, the second issues no order. -/
theorem quoting_once_per_flag (s : State) (n : Nat) (ap av bp bv : List Nat)
    (n' : Nat) (ap' av' bp' bv' : List Nat) :
    (s.mFutOrder = false →
      TradeTicksMessageHandler s Instrument.ETF n ap av bp bv =
        ({ s with mETFMid := (newMid (bp.headD 0) (ap.headD 0)).getD s.mETFMid }, [])) ∧
    (¬ (bp.headD 0 = 0 ∧ ap.headD 0 = 0) →
      (TradeTicksMessageHandler s Instrument.ETF n ap av bp bv).1.mFutOrder = false) ∧
    (¬ (bp.headD 0 = 0 ∧ ap.headD 0 = 0) →
      (TradeTicksMessageHandler (TradeTicksMessageHandler s Instrument.ETF n ap av bp bv).1
        Instrument.ETF n' ap' av' bp' bv').2 = []) := by
  refine ⟨tick_etf_flag_false s n ap av bp bv, tick_etf_clears_flag s n ap av bp bv,
    fun hne => ?_⟩
  rw [tick_etf_flag_false _ n' ap' av' bp' bv' (tick_etf_clears_flag s n ap av bp bv hne)]

theorem quoting_once_per_flag_witness :
    (TradeTicksMessageHandler (initial true 0 1) Instrument.ETF 0 [1100] [] [900] []).2.length
      = 3 ∧
    (TradeTicksMessageHandler
        (TradeTicksMessageHandler (initial true 0 1) Instrument.ETF 0 [1100] [] [900] []).1
        Instrument.ETF 1 [1100] [] [900] []).2 = [] :=
  ⟨by decide, (quoting_once_per_flag (initial true 0 1) 0 [1100] [] [900] []
    1 [1100] [] [900] []).2.2 (by decide)⟩

/-! ## C19 -/

theorem tdiv_pos_divisor (a k : Int) (hk : 0 < k) :
    a.tdiv k = if 0 ≤ a then a / k else -((-a) / k) := by
  split_ifs with h
  · exact Int.tdiv_eq_ediv h (le_of_lt hk)
  · have h' : 0 ≤ -a := by omega
    have := Int.tdiv_eq_ediv h' (le_of_lt hk)
    rw [Int.neg_tdiv] at this
    omega

/-- The three tier volumes together do not exceed the capacity:
`a/3 + a/2 + a/6 ≤ a` for `a ≥ 0`, and no tier has a positive volume for `a ≤ 0`. -/
theorem shares_le (a : Int) :
    max (a.tdiv 3) 0 + max (a.tdiv 2) 0 + max (a.tdiv 6) 0 ≤ max a 0 := by
  rw [tdiv_pos_divisor a 3 (by norm_num), tdiv_pos_divisor a 2 (by norm_num),
    tdiv_pos_divisor a 6 (by norm_num)]
  split_ifs <;> omega

/-- Ledger effect of one sell iteration. -/
theorem sellTier_ledger (a : Int) (r : Outcome) (i : Fin 3) :
    (sellTier a r i).1.mPosition = r.1.mPosition ∧
    (sellTier a r i).1.mActiveBid = r.1.mActiveBid ∧
    buyVolume (sellTier a r i).2 = buyVolume r.2 ∧
    sellVolume (sellTier a r i).2 - sellVolume r.2
      = (sellTier a r i).1.mActiveAsk - r.1.mActiveAsk ∧
    0 ≤ (sellTier a r i).1.mActiveAsk - r.1.mActiveAsk ∧
    (sellTier a r i).1.mActiveAsk - r.1.mActiveAsk ≤ max (a.tdiv (ORDER_SHARE i)) 0 := by
  simp only [sellTier]
  split_ifs with h1 h2
  · simp
  · simp only [sellVolume, buyVolume, List.filter_append, List.map_append, List.sum_append]
    simp [isSell, isBuy, volumeOf]
    omega
  · simp

/-- Ledger effect of one buy iteration. -/
theorem buyTier_ledger (a : Int) (r : Outcome) (i : Fin 3) :
    (buyTier a r i).1.mPosition = r.1.mPosition ∧
    (buyTier a r i).1.mActiveAsk = r.1.mActiveAsk ∧
    sellVolume (buyTier a r i).2 = sellVolume r.2 ∧
    buyVolume (buyTier a r i).2 - buyVolume r.2
      = (buyTier a r i).1.mActiveBid - r.1.mActiveBid ∧
    0 ≤ (buyTier a r i).1.mActiveBid - r.1.mActiveBid ∧
    (buyTier a r i).1.mActiveBid - r.1.mActiveBid ≤ max (a.tdiv (ORDER_SHARE i)) 0 := by
  simp only [buyTier]
  split_ifs with h1 h2
  · simp
  · simp only [sellVolume, buyVolume, List.filter_append, List.map_append, List.sum_append]
    simp [isSell, isBuy, volumeOf]
    omega
  · simp
theorem sellLadder_ledger (r : Outcome) :
    (sellLadder r).1.mPosition = r.1.mPosition ∧
    (sellLadder r).1.mActiveBid = r.1.mActiveBid ∧
    buyVolume (sellLadder r).2 = buyVolume r.2 ∧
    sellVolume (sellLadder r).2 - sellVolume r.2
      = (sellLadder r).1.mActiveAsk - r.1.mActiveAsk ∧
    0 ≤ (sellLadder r).1.mActiveAsk - r.1.mActiveAsk ∧
    (sellLadder r).1.mActiveAsk - r.1.mActiveAsk ≤ max (sellAvailable r.1) 0 := by
  rw [sellLadder_eq]
  have h0 := sellTier_ledger (sellAvailable r.1) r 0
  have h1 := sellTier_ledger (sellAvailable r.1) (sellTier (sellAvailable r.1) r 0) 1
  have h2 := sellTier_ledger (sellAvailable r.1)
    (sellTier (sellAvailable r.1) (sellTier (sellAvailable r.1) r 0) 1) 2
  have hs := shares_le (sellAvailable r.1)
  simp only [ORDER_SHARE] at h0 h1 h2
  refine ⟨?_, ?_, ?_, ?_, ?_, ?_⟩
  · rw [h2.1, h1.1, h0.1]
  · rw [h2.2.1, h1.2.1, h0.2.1]
  · rw [h2.2.2.1, h1.2.2.1, h0.2.2.1]
  · omega
  · omega
  · omega

theorem buyLadder_ledger (r : Outcome) :
    (buyLadder r).1.mPosition = r.1.mPosition ∧
    (buyLadder r).1.mActiveAsk = r.1.mActiveAsk ∧
    sellVolume (buyLadder r).2 = sellVolume r.2 ∧
    buyVolume (buyLadder r).2 - buyVolume r.2
      = (buyLadder r).1.mActiveBid - r.1.mActiveBid ∧
    0 ≤ (buyLadder r).1.mActiveBid - r.1.mActiveBid ∧
    (buyLadder r).1.mActiveBid - r.1.mActiveBid ≤ max (buyAvailable r.1) 0 := by
  rw [buyLadder_eq]
  have h0 := buyTier_ledger (buyAvailable r.1) r 0
  have h1 := buyTier_ledger (buyAvailable r.1) (buyTier (buyAvailable r.1) r 0) 1
  have h2 := buyTier_ledger (buyAvailable r.1)
    (buyTier (buyAvailable r.1) (buyTier (buyAvailable r.1) r 0) 1) 2
  have hs := shares_le (buyAvailable r.1)
  simp only [ORDER_SHARE] at h0 h1 h2
  refine ⟨?_, ?_, ?_, ?_, ?_, ?_⟩
  · rw [h2.1, h1.1, h0.1]
  · rw [h2.2.1, h1.2.1, h0.2.1]
  · rw [h2.2.2.1, h1.2.2.1, h0.2.2.1]
  · omega
  · omega
  · omega

theorem sellPart_ledger (s : State) :
    (sellPart s).1.mPosition = s.mPosition ∧
    (sellPart s).1.mActiveBid = s.mActiveBid ∧
    buyVolume (sellPart s).2 = 0 ∧
    sellVolume (sellPart s).2 = (sellPart s).1.mActiveAsk - s.mActiveAsk ∧
    0 ≤ (sellPart s).1.mActiveAsk - s.mActiveAsk ∧
    (sellPart s).1.mActiveAsk - s.mActiveAsk ≤ max (sellAvailable s) 0 := by
  unfold sellPart
  simp only
  split_ifs
  · have h := sellLadder_ledger ({ s with mFutOrder := false }, [])
    have e : sellAvailable { s with mFutOrder := false } = sellAvailable s := rfl
    have v0 : sellVolume ([] : List Command) = 0 := rfl
    have b0 : buyVolume ([] : List Command) = 0 := rfl
    simp only [e, v0, b0] at h
    refine ⟨h.1, h.2.1, h.2.2.1, ?_, h.2.2.2.2.1, h.2.2.2.2.2⟩
    have := h.2.2.2.1
    omega
  · refine ⟨rfl, rfl, rfl, ?_, ?_, ?_⟩
    · show (0 : Int) = s.mActiveAsk - s.mActiveAsk
      omega
    · show (0 : Int) ≤ s.mActiveAsk - s.mActiveAsk
      omega
    · show s.mActiveAsk - s.mActiveAsk ≤ max (sellAvailable s) 0
      omega

/-- Ledger effect of the quoting step: the position is unchanged, the sell orders issued add up
to the growth of `mActiveAsk`, at most the sell capacity, and the buy orders issued add up to
the growth of `mActiveBid`, at most the buy capacity computed after the sell ladder. -/
theorem quote_ledger (s : State) :
    (quote s).1.mPosition = s.mPosition ∧
    sellVolume (quote s).2 = (quote s).1.mActiveAsk - s.mActiveAsk ∧
    sellVolume (quote s).2 ≤ max (sellAvailable s) 0 ∧
    buyVolume (quote s).2 = (quote s).1.mActiveBid - s.mActiveBid ∧
    buyVolume (quote s).2 ≤ max (buyAvailable (sellPart s).1) 0 ∧
    0 ≤ sellVolume (quote s).2 ∧ 0 ≤ buyVolume (quote s).2 := by
  have hp := sellPart_ledger s
  unfold quote
  simp only
  split_ifs
  · have hb := buyLadder_ledger (sellPart s)
    refine ⟨by rw [hb.1, hp.1], ?_, ?_, ?_, ?_, ?_, ?_⟩ <;> omega
  · refine ⟨hp.1, ?_, ?_, ?_, ?_, ?_, ?_⟩ <;> omega
/-- The outcome of a trade tick is the state with at most a mid or the flag rewritten and no
command, or the outcome of the quoting step entered with the new ETF mid. -/
theorem tick_cases (s : State) (i : Instrument) (n : Nat) (ap av bp bv : List Nat) :
    ((TradeTicksMessageHandler s i n ap av bp bv).2 = [] ∧
      (TradeTicksMessageHandler s i n ap av bp bv).1.mPosition = s.mPosition ∧
      (TradeTicksMessageHandler s i n ap av bp bv).1.mActiveAsk = s.mActiveAsk ∧
      (TradeTicksMessageHandler s i n ap av bp bv).1.mActiveBid = s.mActiveBid) ∨
    (∃ m, newMid (bp.headD 0) (ap.headD 0) = some m ∧
      TradeTicksMessageHandler s i n ap av bp bv = quote { s with mETFMid := m }) := by
  unfold TradeTicksMessageHandler
  cases i with
  | FUTURE =>
    left
    simp only
    cases newMid (bp.headD 0) (ap.headD 0) <;> exact ⟨rfl, rfl, rfl, rfl⟩
  | ETF =>
    simp only
    cases newMid (bp.headD 0) (ap.headD 0) with
    | none => left; exact ⟨rfl, rfl, rfl, rfl⟩
    | some m =>
      simp only
      split_ifs
      · right; exact ⟨m, rfl, rfl⟩
      · left; exact ⟨rfl, rfl, rfl, rfl⟩

/-- C19.  For every state and every trade tick: the volumes of the sell orders issued in the
tick sum to at most `max(available, 0)` for the sell capacity `available` of line 267, because
`a/3 + a/2 + a/6 ≤ a` under integer division for `a ≥ 0`; likewise the volumes of the buy
orders sum to at most `max(available, 0)` for the buy capacity of line 282, computed on the
state the sell ladder left; a tick without a price issues nothing.  Consequently the exposure
bounds `mActiveAsk - mPosition ≤ POSITION_LIMIT` and `mPosition + mActiveBid ≤ POSITION_LIMIT`,
if they hold before the handler, hold after it. -/
theorem ladders_within_capacity (s : State) (i : Instrument) (n : Nat)
    (ap av bp bv : List Nat) :
    (∀ a : Int, 0 ≤ a → a.tdiv 3 + a.tdiv 2 + a.tdiv 6 ≤ a) ∧
    sellVolume (TradeTicksMessageHandler s i n ap av bp bv).2 ≤ max (sellAvailable s) 0 ∧
    (∀ m, newMid (bp.headD 0) (ap.headD 0) = some m →
      buyVolume (TradeTicksMessageHandler s i n ap av bp bv).2
        ≤ max (buyAvailable (sellPart { s with mETFMid := m }).1) 0) ∧
    (newMid (bp.headD 0) (ap.headD 0) = none →
      (TradeTicksMessageHandler s i n ap av bp bv).2 = []) ∧
    (s.mActiveAsk - s.mPosition ≤ POSITION_LIMIT →
      (TradeTicksMessageHandler s i n ap av bp bv).1.mActiveAsk
        - (TradeTicksMessageHandler s i n ap av bp bv).1.mPosition ≤ POSITION_LIMIT) ∧
    (s.mPosition + s.mActiveBid ≤ POSITION_LIMIT →
      (TradeTicksMessageHandler s i n ap av bp bv).1.mPosition
        + (TradeTicksMessageHandler s i n ap av bp bv).1.mActiveBid ≤ POSITION_LIMIT) := by
  have v0 : sellVolume ([] : List Command) = 0 := rfl
  have b0 : buyVolume ([] : List Command) = 0 := rfl
  refine ⟨fun a ha => ?_, ?_⟩
  · have := shares_le a
    rw [tdiv_pos_divisor a 3 (by norm_num), tdiv_pos_divisor a 2 (by norm_num),
      tdiv_pos_divisor a 6 (by norm_num), if_pos ha]
    omega
  rcases tick_cases s i n ap av bp bv with ⟨hc, hp, haa, hab⟩ | ⟨m, hm, hq⟩
  · refine ⟨?_, fun m _ => ?_, fun _ => hc, fun h => ?_, fun h => ?_⟩
    · rw [hc, v0]; omega
    · rw [hc, b0]; omega
    · rw [hp, haa]; exact h
    · rw [hp, hab]; exact h
  · have hl := quote_ledger { s with mETFMid := m }
    have hsp := sellPart_ledger { s with mETFMid := m }
    have e : sellAvailable { s with mETFMid := m } = sellAvailable s := rfl
    rw [e] at hl
    have hsa : sellAvailable s ≤ s.mPosition - s.mActiveAsk + POSITION_LIMIT := by
      simp only [sellAvailable]; omega
    have hba : buyAvailable (sellPart { s with mETFMid := m }).1
        ≤ -s.mPosition + POSITION_LIMIT - s.mActiveBid := by
      have h1 := hsp.1
      have h2 := hsp.2.1
      simp only [buyAvailable]
      simp only [] at h1 h2
      omega
    refine ⟨?_, fun m' hm' => ?_, fun hn => ?_, fun h => ?_, fun h => ?_⟩
    · rw [hq]; exact hl.2.2.1
    · have : m' = m := by rw [hm] at hm'; exact (Option.some.inj hm').symm
      subst this
      rw [hq]; exact hl.2.2.2.2.1
    · rw [hm] at hn; exact absurd hn (by simp)
    · rw [hq]
      have h1 := hl.1
      have h2 := hl.2.1
      have h3 := hl.2.2.1
      simp only [] at h1 h2
      omega
    · rw [hq]
      have h1 := hl.1
      have h4 := hl.2.2.2.1
      have h5 := hl.2.2.2.2.1
      simp only [] at h1 h4
      omega

theorem ladders_within_capacity_witness :
    sellVolume (TradeTicksMessageHandler
        { initial true 0 1 with mPosition := -90, mFutMid := 1000 }
        Instrument.ETF 0 [1100] [] [900] []).2 = 9 ∧
    buyVolume (TradeTicksMessageHandler
        { initial true 0 1 with mPosition := -90, mFutMid := 1000 }
        Instrument.ETF 0 [1100] [] [900] []).2 = 60 ∧
    (TradeTicksMessageHandler { initial true 0 1 with mPosition := -90, mFutMid := 1000 }
        Instrument.ETF 0 [1100] [] [900] []).1.mActiveAsk
      - (TradeTicksMessageHandler { initial true 0 1 with mPosition := -90, mFutMid := 1000 }
        Instrument.ETF 0 [1100] [] [900] []).1.mPosition ≤ POSITION_LIMIT :=
  ⟨by decide, by decide,
    (ladders_within_capacity { initial true 0 1 with mPosition := -90, mFutMid := 1000 }
      Instrument.ETF 0 [1100] [] [900] []).2.2.2.2.1 (by decide)⟩

/-! ## C20 -/

/-- C20.  For all integer mids `e = mETFMid` and `f = mFutMid`, at least one of the ladder
conditions `e < f + 300` (sell, line 266) and `e + 300 > f` (buy, line 281) holds, and both hold
exactly when `|e - f| < 300`.  So the quoting step always evaluates at least one ladder: it is
the sell ladder followed by the buy ladder when both conditions hold, the sell ladder alone
when only the first holds, and the buy ladder alone otherwise; and every ETF tick with a
non-empty market and the flag set runs the quoting step. -/
theorem mispricing_gate :
    (∀ e f : Int, (e < f + 300 ∨ e + 300 > f) ∧
      ((e < f + 300 ∧ e + 300 > f) ↔ |e - f| < 300)) ∧
    (∀ s : State, quote s =
      (if s.mETFMid < s.mFutMid + 300 then
        (if s.mETFMid + 300 > s.mFutMid then
          buyLadder (sellLadder ({ s with mFutOrder := false }, []))
         else sellLadder ({ s with mFutOrder := false }, []))
       else buyLadder ({ s with mFutOrder := false }, []))) ∧
    (∀ (s : State) (n : Nat) (ap av bp bv : List Nat) (m : Int),
      newMid (bp.headD 0) (ap.headD 0) = some m → s.mFutOrder = true →
      TradeTicksMessageHandler s Instrument.ETF n ap av bp bv =
        quote { s with mETFMid := m }) := by
  refine ⟨?_, ?_, fun s n ap av bp bv m hm hflag => tick_etf_quotes s n ap av bp bv m hm hflag⟩
  · intro e f
    refine ⟨by omega, ?_⟩
    rw [abs_lt]
    constructor
    · rintro ⟨h1, h2⟩; constructor <;> omega
    · rintro ⟨h1, h2⟩; constructor <;> omega
  · intro s
    by_cases hs : s.mETFMid < s.mFutMid + 300
    · have hsp : sellPart s = sellLadder ({ s with mFutOrder := false }, []) := by
        simp only [sellPart, if_pos hs]
      rw [if_pos hs]
      simp only [quote, (sellPart_mids s).1, (sellPart_mids s).2]
      rw [hsp]
    · have hsp : sellPart s = ({ s with mFutOrder := false }, []) := by
        simp only [sellPart, if_neg hs]
      have hb : s.mETFMid + 300 > s.mFutMid := by omega
      rw [if_neg hs]
      simp only [quote, (sellPart_mids s).1, (sellPart_mids s).2, if_pos hb]
      rw [hsp]

theorem mispricing_gate_witness :
    ((1000 : Int) < 1400 + 300 ∨ (1000 : Int) + 300 > 1400) ∧
    TradeTicksMessageHandler { initial true 0 1 with mFutMid := 1400 } Instrument.ETF 0
        [1100] [] [900] [] =
      quote { initial true 0 1 with mFutMid := 1400, mETFMid := 1000 } :=
  ⟨(mispricing_gate.1 1000 1400).1,
    mispricing_gate.2.2 { initial true 0 1 with mFutMid := 1400 } 0 [1100] [] [900] [] 1000
      (by decide) (by decide)⟩

/-! ## Reachable states -/

theorem tiers_mAskVolume (a : Int) (r : Outcome) (i : Fin 3) :
    (sellTier a r i).1.mAskVolume = r.1.mAskVolume ∧
    (buyTier a r i).1.mAskVolume = r.1.mAskVolume := by
  simp only [sellTier, buyTier]
  constructor <;> split_ifs <;> rfl

theorem tick_mAskVolume (s : State) (i : Instrument) (n : Nat) (ap av bp bv : List Nat) :
    (TradeTicksMessageHandler s i n ap av bp bv).1.mAskVolume = s.mAskVolume := by
  apply tick_preserves (fun t => t.mAskVolume = s.mAskVolume)
  · intro _ _ h; exact h
  · intro _ _ h; exact h
  · intro _ _ h; exact h
  · intro a r i h; rw [(tiers_mAskVolume a r i).1]; exact h
  · intro a r i h; rw [(tiers_mAskVolume a r i).2]; exact h
  · rfl

/-- A trade tick either sends nothing, leaves the position alone and does not set the flag,
or finds the flag set and is the quoting step entered with the new ETF mid. -/
theorem tick_cases_flag (s : State) (i : Instrument) (n : Nat) (ap av bp bv : List Nat) :
    ((TradeTicksMessageHandler s i n ap av bp bv).2 = [] ∧
      (TradeTicksMessageHandler s i n ap av bp bv).1.mPosition = s.mPosition ∧
      ((TradeTicksMessageHandler s i n ap av bp bv).1.mFutOrder = true →
        TradeTicksMessageHandler s i n ap av bp bv = (s, []))) ∨
    (s.mFutOrder = true ∧ ∃ m, newMid (bp.headD 0) (ap.headD 0) = some m ∧
      TradeTicksMessageHandler s i n ap av bp bv = quote { s with mETFMid := m }) := by
  unfold TradeTicksMessageHandler
  cases i with
  | FUTURE =>
    left
    simp only
    cases newMid (bp.headD 0) (ap.headD 0) <;>
      exact ⟨rfl, rfl, fun h => absurd h (by simp)⟩
  | ETF =>
    simp only
    cases newMid (bp.headD 0) (ap.headD 0) with
    | none => left; exact ⟨rfl, rfl, fun _ => rfl⟩
    | some m =>
      simp only
      split_ifs with hf
      · right; exact ⟨hf, m, rfl, rfl⟩
      · left; exact ⟨rfl, rfl, fun h => absurd h hf⟩

theorem status_noQuoteYet (s : State) (id f r : Nat) (fees : Int) (h : NoQuoteYet s) :
    NoQuoteYet (OrderStatusMessageHandler s id f r fees).1 := by
  obtain ⟨hv, hq⟩ := h
  simp only [OrderStatusMessageHandler, NoQuoteYet]
  split_ifs with h0 hb ha
  · exact ⟨hv, fun hf => by have := (hq hf).2.2.2.2; simp [this] at hb⟩
  · exact ⟨hv, fun hf => by have := (hq hf).2.2.2.1; simp [this] at ha⟩
  · exact ⟨hv, hq⟩
  · exact ⟨hv, hq⟩

/-- Every handler keeps the shape `NoQuoteYet`. -/
theorem handle_noQuoteYet (L : Limits) (s : State) (e : Event) (h : NoQuoteYet s) :
    NoQuoteYet (handle L s e).1 := by
  cases e with
  | Disconnect => exact h
  | Error id msg =>
    simp only [handle, ErrorMessageHandler]
    split_ifs
    · exact status_noQuoteYet s id 0 0 0 h
    · exact h
  | HedgeFilled id p v =>
    simp only [handle, HedgeFilledMessageHandler]
    split_ifs <;> exact h
  | OrderBook i n ap av bp bv => exact h
  | OrderFilled id p v =>
    obtain ⟨hv, hq⟩ := h
    simp only [handle, OrderFilledMessageHandler, NoQuoteYet]
    split_ifs with ha hb
    · exact ⟨hv, fun hf => by have := (hq hf).2.2.2.1; simp [this] at ha⟩
    · exact ⟨hv, fun hf => by have := (hq hf).2.2.2.2; simp [this] at hb⟩
    · exact ⟨hv, hq⟩
  | OrderStatus id f r fees => exact status_noQuoteYet s id f r fees h
  | TradeTicks i n ap av bp bv =>
    simp only [handle]
    refine ⟨by rw [tick_mAskVolume]; exact h.1, fun hf => ?_⟩
    rcases tick_cases_flag s i n ap av bp bv with ⟨_, _, hsame⟩ | ⟨_, m, _, hq⟩
    · have e := hsame hf
      rw [e] at hf ⊢
      exact h.2 hf
    · rw [hq, quote_mFutOrder] at hf
      exact absurd hf (by simp)

theorem initial_noQuoteYet (b : Bool) (o k : Nat) : NoQuoteYet (initial b o k) :=
  ⟨rfl, fun _ => ⟨rfl, rfl, rfl, rfl, rfl⟩⟩

theorem status_flag_position (s : State) (id f r : Nat) (fees : Int) :
    (OrderStatusMessageHandler s id f r fees).1.mFutOrder = s.mFutOrder ∧
    (OrderStatusMessageHandler s id f r fees).1.mPosition = s.mPosition ∧
    (OrderStatusMessageHandler s id f r fees).2 = [] := by
  simp only [OrderStatusMessageHandler]
  split_ifs <;> exact ⟨rfl, rfl, rfl⟩

/-- An event that is not a fill of an outstanding order and does not quote leaves the flag,
the position and the volume on order as they are. -/
theorem exposure_of_same (s t : State) (room : Int × Int) (hx : Exposure s room)
    (hf : t.mFutOrder = s.mFutOrder) (hp : t.mPosition = s.mPosition) : Exposure t room := by
  obtain ⟨h1, h2, h3, h4, h5⟩ := hx
  exact ⟨h1, h2, by rw [hp]; exact h3, by rw [hp]; exact h4, fun h => h5 (by rw [← hf]; exact h)⟩

/-- One event keeps the exposure bounds, provided it is not a fill for more than the volume on
order.  The quoting step is where the capacities of lines 267 and 282 are used. -/
theorem handle_exposure (L : Limits) (s : State) (room room' : Int × Int) (e : Event)
    (hq : NoQuoteYet s) (hx : Exposure s room) (hr : roomAfter L s room e = some room') :
    Exposure (handle L s e).1 room' := by
  have v0 : sellVolume ([] : List Command) = 0 := rfl
  have b0 : buyVolume ([] : List Command) = 0 := rfl
  cases e with
  | Disconnect =>
    simp only [roomAfter, handle, DisconnectHandler, v0, b0, add_zero, Option.some.injEq] at hr
    rw [← hr]; exact hx
  | OrderBook i n ap av bp bv =>
    simp only [roomAfter, handle, OrderBookMessageHandler, v0, b0, add_zero,
      Option.some.injEq] at hr
    rw [← hr]; exact hx
  | Error id msg =>
    simp only [roomAfter, handle, Option.some.injEq] at hr
    simp only [handle]
    have hs : (ErrorMessageHandler s id msg).1.mFutOrder = s.mFutOrder ∧
        (ErrorMessageHandler s id msg).1.mPosition = s.mPosition ∧
        (ErrorMessageHandler s id msg).2 = [] := by
      simp only [ErrorMessageHandler]
      split_ifs
      · exact status_flag_position s id 0 0 0
      · exact ⟨rfl, rfl, rfl⟩
    rw [hs.2.2, v0, b0, add_zero, add_zero] at hr
    rw [← hr]
    exact exposure_of_same s _ room hx hs.1 hs.2.1
  | OrderStatus id f r fees =>
    simp only [roomAfter, handle, Option.some.injEq] at hr
    simp only [handle]
    have hs := status_flag_position s id f r fees
    rw [hs.2.2, v0, b0, add_zero, add_zero] at hr
    rw [← hr]
    exact exposure_of_same s _ room hx hs.1 hs.2.1
  | HedgeFilled id p v =>
    simp only [roomAfter, handle, Option.some.injEq] at hr
    simp only [handle]
    have hs : (HedgeFilledMessageHandler s id p v).1.mFutOrder = s.mFutOrder ∧
        (HedgeFilledMessageHandler s id p v).1.mPosition = s.mPosition ∧
        (HedgeFilledMessageHandler s id p v).2 = [] := by
      simp only [HedgeFilledMessageHandler]
      split_ifs <;> exact ⟨rfl, rfl, rfl⟩
    rw [hs.2.2, v0, b0, add_zero, add_zero] at hr
    rw [← hr]
    exact exposure_of_same s _ room hx hs.1 hs.2.1
  | OrderFilled id p v =>
    obtain ⟨h1, h2, h3, h4, h5⟩ := hx
    simp only [POSITION_LIMIT] at h3 h4
    simp only [roomAfter] at hr
    simp only [handle, OrderFilledMessageHandler, Exposure, POSITION_LIMIT]
    split_ifs at hr ⊢ with ha hv hb hv
    · simp only [Option.some.injEq] at hr
      rw [← hr]
      have hl : toLong (v : Int) = v := toLong_of_range _ (by omega) (by omega)
      simp only [hl]
      refine ⟨by omega, h2, by omega, by omega, fun hf => ?_⟩
      have := (hq.2 hf).2.2.2.1
      simp [this] at ha
    · simp only [Option.some.injEq] at hr
      rw [← hr]
      have hl : toLong (v : Int) = v := toLong_of_range _ (by omega) (by omega)
      simp only [hl]
      refine ⟨h1, by omega, by omega, by omega, fun hf => ?_⟩
      have := (hq.2 hf).2.2.2.2
      simp [this] at hb
    · simp only [Option.some.injEq] at hr
      rw [← hr]
      exact ⟨h1, h2, h3, h4, h5⟩
  | TradeTicks i n ap av bp bv =>
    simp only [roomAfter, handle, Option.some.injEq] at hr
    simp only [handle]
    rcases tick_cases_flag s i n ap av bp bv with ⟨hc, hp, hsame⟩ | ⟨hf, m, _, hqt⟩
    · rw [hc, v0, b0, add_zero, add_zero] at hr
      rw [← hr]
      obtain ⟨h1, h2, h3, h4, h5⟩ := hx
      refine ⟨h1, h2, by rw [hp]; exact h3, by rw [hp]; exact h4, fun h => ?_⟩
      have e := hsame h
      rw [e] at h
      exact h5 h
    · obtain ⟨hpos, haa, hab, _, _⟩ := hq.2 hf
      have hroom := hx.2.2.2.2 hf
      have hl := quote_ledger { s with mETFMid := m }
      have hsp := sellPart_ledger { s with mETFMid := m }
      have hsa : sellAvailable { s with mETFMid := m } ≤ 100 := by
        simp only [sellAvailable, hpos, haa, POSITION_LIMIT]; omega
      have hba : buyAvailable (sellPart { s with mETFMid := m }).1 ≤ 100 := by
        have e1 := hsp.1
        have e2 := hsp.2.1
        simp only [] at e1 e2
        simp only [buyAvailable, e1, e2, hpos, hab, POSITION_LIMIT]; omega
      have hp' : (quote { s with mETFMid := m }).1.mPosition = 0 := by
        rw [hl.1]; exact hpos
      rw [hqt] at hr ⊢
      rw [hroom] at hr
      rw [← hr]
      simp only [Exposure, POSITION_LIMIT, hp', quote_mFutOrder]
      have s1 := hl.2.2.1
      have s2 := hl.2.2.2.2.1
      have s3 := hl.2.2.2.2.2.1
      have s4 := hl.2.2.2.2.2.2
      refine ⟨by omega, by omega, by omega, by omega, fun h => absurd h (by simp)⟩

/-- Along a sequence of events without a fill for more than the volume on order, the position
stays within the limit. -/
theorem run_positionOk (L : Limits) (es : List Event) :
    ∀ (s : State) (room : Int × Int), NoQuoteYet s → Exposure s room →
      fillsWithinSent L s room es = true → PositionOk (run L s es) := by
  induction es with
  | nil =>
    intro s room _ hx _
    obtain ⟨h1, h2, h3, h4, _⟩ := hx
    simp only [run, PositionOk, POSITION_LIMIT] at *
    constructor <;> omega
  | cons e es ih =>
    intro s room hq hx hf
    simp only [fillsWithinSent] at hf
    cases hr : roomAfter L s room e with
    | none => rw [hr] at hf; exact absurd hf (by simp)
    | some room' =>
      rw [hr] at hf
      exact ih _ room' (handle_noQuoteYet L s e hq) (handle_exposure L s room room' e hq hx hr) hf

theorem handle_flag_unset (L : Limits) (s : State) (e : Event)
    (hf : s.mFutOrder = false) (ha : s.mAsks = ∅) (hb : s.mBids = ∅) :
    (handle L s e).1.mFutOrder = false ∧ (handle L s e).1.mAsks = ∅ ∧
    (handle L s e).1.mBids = ∅ ∧ (handle L s e).1.mPosition = s.mPosition := by
  have hst : ∀ (id f r : Nat) (fees : Int),
      (OrderStatusMessageHandler s id f r fees).1.mFutOrder = false ∧
      (OrderStatusMessageHandler s id f r fees).1.mAsks = ∅ ∧
      (OrderStatusMessageHandler s id f r fees).1.mBids = ∅ ∧
      (OrderStatusMessageHandler s id f r fees).1.mPosition = s.mPosition := by
    intro id f r fees
    simp only [OrderStatusMessageHandler]
    split_ifs with h0 h1 h2
    · rw [hb] at h1; exact absurd h1 (Finset.not_mem_empty id)
    · rw [ha] at h2; exact absurd h2 (Finset.not_mem_empty id)
    · exact ⟨hf, ha, hb, rfl⟩
    · exact ⟨hf, ha, hb, rfl⟩
  cases e with
  | Disconnect => exact ⟨hf, ha, hb, rfl⟩
  | OrderBook i n ap av bp bv => exact ⟨hf, ha, hb, rfl⟩
  | Error id msg =>
    simp only [handle, ErrorMessageHandler]
    split_ifs
    · exact hst id 0 0 0
    · exact ⟨hf, ha, hb, rfl⟩
  | OrderStatus id f r fees => exact hst id f r fees
  | HedgeFilled id p v =>
    simp only [handle, HedgeFilledMessageHandler]
    split_ifs <;> exact ⟨hf, ha, hb, rfl⟩
  | OrderFilled id p v =>
    simp only [handle, OrderFilledMessageHandler]
    split_ifs with h1 h2
    · rw [ha] at h1; exact absurd h1 (Finset.not_mem_empty id)
    · rw [hb] at h2; exact absurd h2 (Finset.not_mem_empty id)
    · exact ⟨hf, ha, hb, rfl⟩
  | TradeTicks i n ap av bp bv =>
    simp only [handle]
    cases i with
    | FUTURE =>
      simp only [TradeTicksMessageHandler]
      cases newMid (bp.headD 0) (ap.headD 0) <;> exact ⟨rfl, ha, hb, rfl⟩
    | ETF =>
      rw [tick_etf_flag_false s n ap av bp bv hf]
      exact ⟨hf, ha, hb, rfl⟩

/-- With the flag unset and nothing registered, no sequence of events moves the position: no
order is ever sent, so no fill finds an outstanding order. -/
theorem run_flag_unset (L : Limits) (es : List Event) :
    ∀ s : State, s.mFutOrder = false → s.mAsks = ∅ → s.mBids = ∅ →
      (run L s es).mPosition = s.mPosition := by
  induction es with
  | nil => intro s _ _ _; rfl
  | cons e es ih =>
    intro s hf ha hb
    obtain ⟨h1, h2, h3, h4⟩ := handle_flag_unset L s e hf ha hb
    simp only [run]
    rw [ih _ h1 h2 h3, h4]

/-- C1 (amended).  In every state reachable from the start-up state (all counters zero, empty
registries, either value of the fresh-hedge flag, any values of the two identifier counters) by
a finite sequence of handler calls, `-POSITION_LIMIT ≤ mPosition ≤ POSITION_LIMIT`, provided no
fill reports more volume than was sent and is still unfilled: every fill handled for an
outstanding ask is at most the total volume of the SELL orders sent so far less the fills
already handled for asks, and likewise for bids and BUY orders.  All other arguments of all
events are arbitrary.  When the flag starts unset the bound holds for every sequence, as no
order is ever sent. -/
theorem position_limit_of_fills_within_orders (L : Limits) (b : Bool) (o k : Nat)
    (es : List Event)
    (h : b = true → fillsWithinSent L (initial b o k) (0, 0) es = true) :
    PositionOk (run L (initial b o k) es) := by
  cases b with
  | true =>
    refine run_positionOk L es (initial true o k) (0, 0) (initial_noQuoteYet true o k) ?_ (h rfl)
    refine ⟨le_refl _, le_refl _, ?_, ?_, fun _ => rfl⟩
    · show -POSITION_LIMIT ≤ (0 : Int) - 0
      simp only [POSITION_LIMIT]; omega
    · show (0 : Int) + 0 ≤ POSITION_LIMIT
      simp only [POSITION_LIMIT]; omega
  | false =>
    have hp := run_flag_unset L es (initial false o k) rfl rfl rfl
    have h0 : (initial false o k).mPosition = 0 := rfl
    rw [h0] at hp
    simp only [PositionOk, hp, POSITION_LIMIT]
    constructor <;> omega

theorem position_limit_of_fills_within_orders_witness :
    PositionOk (run ⟨1, 2147483647⟩ (initial true 0 1)
        [Event.TradeTicks Instrument.ETF 0 [1100] [] [900] [],
         Event.OrderFilled 0 1000 20,
         Event.OrderStatus 0 20 0 0,
         Event.OrderFilled 1 900 30]) ∧
    (run ⟨1, 2147483647⟩ (initial true 0 1)
        [Event.TradeTicks Instrument.ETF 0 [1100] [] [900] [],
         Event.OrderFilled 0 1000 20,
         Event.OrderStatus 0 20 0 0,
         Event.OrderFilled 1 900 30]).mPosition = 50 ∧
    fillsWithinSent ⟨1, 2147483647⟩ (initial true 0 1) (0, 0)
        [Event.TradeTicks Instrument.ETF 0 [1100] [] [900] [],
         Event.OrderFilled 0 500 1000] = false :=
  ⟨position_limit_of_fills_within_orders ⟨1, 2147483647⟩ true 0 1 _ (fun _ => by decide),
    by decide, by decide⟩

/-! ## C8 (reachable states) -/

end AutoTrader
